import Mathlib

/-!
# KVMS hypervisor-call dispatcher: shallow embedding

Embedding of `src/core/hvccall.c` (`set_lockflags`, `is_apicall`, `guest_hvccall`,
`hvccall`) and of `platform_get_next_vmid` from `src/platform/virt/host_platform.c`.

Conventions
* `register_t`, `uint64_t`, `size_t` and pointers are natural numbers (the 64-bit
  pattern); C `int` / `int64_t` values are integers, with an explicit wrap where
  the source converts to a narrower type.
* Functions of the repository whose bodies are not part of the sources at hand
  (the mapper, the guest registry, the jump table, the log, ...) are fields of
  `Env`: they act on an abstract collaborator state `σ`, and do not write the globals
  of `hvccall.c` (`hostflags`, the text range, the lock word).
* Every function returns, next to its C result, the new global state and the
  list of events (lock operations and calls) it performed, in program order.
* `LOG` / `ERROR` output is not modelled.
-/

namespace Kvms

/-! ## Constants of `hvccall-defines.h`, `armtrans.h`, `errno.h` -/

@[simp] abbrev KERN_VA_MASK : Nat := 0x0000000FFFFFFFFF
@[simp] abbrev CALL_MASK : Nat := KERN_VA_MASK

@[simp] abbrev HOST_STAGE1_LOCK : Nat := 0x1
@[simp] abbrev HOST_STAGE2_LOCK : Nat := 0x2
@[simp] abbrev HOST_KVM_CALL_LOCK : Nat := 0x4
@[simp] abbrev HOST_PT_LOCK : Nat := 0x8
@[simp] abbrev HOST_KVM_TRAMPOLINE_LOCK : Nat := 0x10

@[simp] abbrev HYP_FIRST_HOSTCALL : Nat := 0x8000
@[simp] abbrev HYP_HOST_MAP_STAGE1 : Nat := 0x8000
@[simp] abbrev HYP_HOST_MAP_STAGE2 : Nat := 0x8001
@[simp] abbrev HYP_HOST_UNMAP_STAGE1 : Nat := 0x8002
@[simp] abbrev HYP_HOST_UNMAP_STAGE2 : Nat := 0x8003
@[simp] abbrev HYP_HOST_BOOTSTEP : Nat := 0x8004
@[simp] abbrev HYP_HOST_GET_VMID : Nat := 0x8005
@[simp] abbrev HYP_HOST_SET_LOCKFLAGS : Nat := 0x8006
@[simp] abbrev HYP_HOST_PREPARE_STAGE1 : Nat := 0x8007
@[simp] abbrev HYP_HOST_PREPARE_STAGE2 : Nat := 0x8008
@[simp] abbrev HYP_LAST_HOSTCALL : Nat := HYP_HOST_SET_LOCKFLAGS

@[simp] abbrev HYP_FIRST_GUESTCALL : Nat := 0x9000
@[simp] abbrev HYP_READ_MDCR_EL2 : Nat := 0x9000
@[simp] abbrev HYP_SET_HYP_TXT : Nat := 0x9001
@[simp] abbrev HYP_SET_TPIDR : Nat := 0x9002
@[simp] abbrev HYP_INIT_GUEST : Nat := 0x9003
@[simp] abbrev HYP_FREE_GUEST : Nat := 0x9004
@[simp] abbrev HYP_UPDATE_GUEST_MEMSLOT : Nat := 0x9005
@[simp] abbrev HYP_GUEST_MAP_STAGE2 : Nat := 0x9006
@[simp] abbrev HYP_GUEST_UNMAP_STAGE2 : Nat := 0x9007
@[simp] abbrev HYP_SET_WORKMEM : Nat := 0x9008
@[simp] abbrev HYP_USER_COPY : Nat := 0x9009
@[simp] abbrev HYP_MKYOUNG : Nat := 0x900A
@[simp] abbrev HYP_SET_GUEST_MEMORY_OPEN : Nat := 0x900B
@[simp] abbrev HYP_SET_GUEST_MEMORY_BLINDED : Nat := 0x900C
@[simp] abbrev HYP_MKOLD : Nat := 0x900D
@[simp] abbrev HYP_ISYOUNG : Nat := 0x900E
@[simp] abbrev HYP_LAST_GUESTCALL : Nat := HYP_ISYOUNG

@[simp] abbrev HYP_READ_LOG : Nat := 0xA000

@[simp] abbrev STAGE1 : Nat := 0
@[simp] abbrev STAGE2 : Nat := 1
/-- The memory type `KERNEL_MATTR`, `1 << 7` in the source. -/
@[simp] abbrev KERNEL_MATTR : Nat := 1 <<< 7
/-- The memory type `KEEP_MATTR`, `1 << 8` in the source. -/
@[simp] abbrev KEEP_MATTR : Nat := 1 <<< 8

@[simp] abbrev EPERM : Int := 1
@[simp] abbrev ENOENT : Int := 2
@[simp] abbrev EINVAL : Int := 22

@[simp] abbrev CALL_TYPE_UNKNOWN : Nat := 0
@[simp] abbrev CALL_TYPE_HOSTCALL : Nat := 1
@[simp] abbrev CALL_TYPE_GUESTCALL : Nat := 2
@[simp] abbrev CALL_TYPE_KVMCALL : Nat := 3

/-! ## Machine integers -/

/-- Conversion of an integer value to C `int` (two's complement, 32 bit). -/
@[irreducible] def toInt32 (x : Int) : Int := (x + 2 ^ 31) % 2 ^ 32 - 2 ^ 31

/-- Conversion of an integer value to `uint32_t`. -/
@[irreducible] def toUInt32 (x : Int) : Nat := (x % 2 ^ 32).toNat

/-! ## Data model -/

/-- Build-time configuration: macros of `hyp_config.h` / `host_platform.h` / `guest.h`
whose definitions are not part of the sources at hand. -/
structure Config where
  HOST_VMID : Nat
  GUEST_VMID_START : Nat
  PRODUCT_VMID_MAX : Nat
  PLATFORM_CORE_COUNT : Nat
  HOSTBLINDING_DEV : Bool
deriving DecidableEq, Repr

/-- The part of `kvm_guest_t` the dispatcher reads: the handle itself and the two roots. -/
structure Guest where
  handle : Nat
  s1_pgd : Nat
  s2_pgd : Nat
deriving DecidableEq, Repr

/-- Collaborator functions called by the dispatcher through `Env.call`. -/
inductive Fn where
  | mmap_range
  | unmap_range
  | add_kvm_hyp_region
  | remove_kvm_hyp_region
  | guest_set_vmid
  | lock_host_kernel_area
  | set_heap
  | guest_map_range
  | guest_unmap_range
  | guest_stage2_access_flag
  | init_guest
  | free_guest
  | update_memslot
  | guest_user_copy
  | read_log
  | add_jump
  | remove_host_range
  | restore_host_range
deriving DecidableEq, Repr

/-- What a call of the dispatcher does, in program order. -/
inductive Event where
  /-- The event `spin_lock(&core_lock)`. -/
  | spin_lock
  /-- The event `spin_unlock(&core_lock)`. -/
  | spin_unlock
  /-- A collaborator function was called with these arguments and returned `res`. -/
  | call (f : Fn) (args : List Nat) (res : Int)
  /-- The function `set_lockflags` of this file was called. -/
  | set_lockflags (flags addr sz : Nat)
  /-- The check `is_jump_valid(cn)` was made and answered `valid`. -/
  | is_jump_valid (cn : Nat) (valid : Bool)
  /-- The address `cn` was called as a function: `func(a1, ..., a9)`. -/
  | func (cn : Nat) (args : List Nat) (res : Int)
  /-- The macro `HYP_ABORT()` was reached. -/
  | HYP_ABORT
deriving DecidableEq, Repr

/-- The nine argument registers of a hypervisor call. -/
structure Args where
  a1 : Nat
  a2 : Nat
  a3 : Nat
  a4 : Nat
  a5 : Nat
  a6 : Nat
  a7 : Nat
  a8 : Nat
  a9 : Nat
deriving DecidableEq, Repr

/-- Collaborators of the dispatcher, over their own state `σ` (tables, registry,
jump table, heap, log, current vmid). -/
structure Env (σ : Type) where
  get_current_vmid : σ → Nat
  /-- The lookup `get_guest(vmid)`; `none` is `NULL`. The argument is the C value passed. -/
  get_guest : σ → Int → Option Guest
  kern_hyp_va : Nat → Nat
  is_jump_valid : Nat → σ → Bool × σ
  /-- The call `func(a1, ..., a9)` through the address `cn`. -/
  func : Nat → List Nat → σ → Int × σ
  call : Fn → List Nat → σ → Int × σ

/-- Global state the dispatcher reads and writes. -/
structure State (σ : Type) where
  hostflags : Nat
  hyp_text_start : Nat
  hyp_text_end : Nat
  guest_exit : Nat
  fpsimd_guest_restore : Nat
  kvm_host_data : List Nat
  core_lock : Nat
  mdcr_el2 : Nat
  tpidr_el2 : Nat
  ext : σ

/-- How a call ends: it returns a value, or it reaches `HYP_ABORT()` and never returns. -/
inductive Outcome where
  | ret (res : Int)
  | abort
deriving DecidableEq, Repr

/-- Outcome, final state and events of a call. -/
structure Result (σ : Type) where
  out : Outcome
  st : State σ
  evs : List Event

/-- Result of a collaborator call: value, new state, the event. -/
structure Called (σ : Type) where
  res : Int
  st : State σ
  evs : List Event

/-- Call collaborator `f` with `args` in state `s`. -/
def invoke {σ : Type} (env : Env σ) (f : Fn) (args : List Nat) (s : State σ) : Called σ :=
  let r := env.call f args s.ext
  { res := r.1, st := { s with ext := r.2 }, evs := [Event.call f args r.1] }

/-- Modelled from the spec: `spin_lock(&core_lock)` (spinlock.h is not part of the sources);
the spin-wait is not modelled, the lock word is taken. -/
def spin_lock {σ : Type} (s : State σ) : State σ := { s with core_lock := 1 }

/-- Modelled from the spec: `spin_unlock(&core_lock)` releases the lock word. -/
def spin_unlock {σ : Type} (s : State σ) : State σ := { s with core_lock := 0 }

/-! ## `hvccall.c` -/

/-- The function `set_lockflags(flags, addr, sz)`. -/
def set_lockflags {σ : Type} (env : Env σ) (flags addr sz : Nat) (s : State σ) : Called σ :=
  let s1 := if flags &&& HOST_STAGE2_LOCK ≠ 0
    then { s with hostflags := s.hostflags ||| HOST_STAGE2_LOCK } else s
  let s2 := if flags &&& HOST_STAGE1_LOCK ≠ 0
    then { s1 with hostflags := s1.hostflags ||| HOST_STAGE1_LOCK } else s1
  let s3 := if flags &&& HOST_KVM_CALL_LOCK ≠ 0
    then { s2 with hostflags := s2.hostflags ||| HOST_KVM_CALL_LOCK } else s2
  if flags &&& HOST_PT_LOCK ≠ 0 then
    let r := invoke env Fn.lock_host_kernel_area [addr, sz] s3
    { res := r.res, st := r.st, evs := Event.set_lockflags flags addr sz :: r.evs }
  else
    { res := 0, st := s3, evs := [Event.set_lockflags flags addr sz] }

/-- The function `is_apicall(cn)`. -/
def is_apicall (cn : Nat) : Nat :=
  if cn ≥ HYP_FIRST_GUESTCALL ∧ cn ≤ HYP_LAST_GUESTCALL then CALL_TYPE_GUESTCALL
  else if cn ≥ HYP_FIRST_HOSTCALL ∧ cn ≤ HYP_LAST_HOSTCALL then CALL_TYPE_HOSTCALL
  else CALL_TYPE_UNKNOWN

/-- The function `guest_hvccall`. -/
def guest_hvccall {σ : Type} (env : Env σ) (cn : Nat) (a : Args) (s : State σ) : Result σ :=
  let s1 := spin_lock s
  if cn = HYP_SET_GUEST_MEMORY_BLINDED then
    let r := invoke env Fn.remove_host_range [a.a1, a.a2] s1
    { out := Outcome.ret r.res, st := spin_unlock r.st,
      evs := Event.spin_lock :: r.evs ++ [Event.spin_unlock] }
  else if cn = HYP_SET_GUEST_MEMORY_OPEN then
    let r := invoke env Fn.restore_host_range [a.a1, a.a2] s1
    { out := Outcome.ret r.res, st := spin_unlock r.st,
      evs := Event.spin_lock :: r.evs ++ [Event.spin_unlock] }
  else
    { out := Outcome.ret (-EINVAL), st := spin_unlock s1,
      evs := [Event.spin_lock, Event.spin_unlock] }

/-- The nine argument registers as passed to `func`. -/
def Args.toList (a : Args) : List Nat :=
  [a.a1, a.a2, a.a3, a.a4, a.a5, a.a6, a.a7, a.a8, a.a9]

/-- The `do_retry:` block of the default case of `hvccall`, entered with the translated
call number `cn` and the current value of the local `retried`. The `goto do_retry` is
the recursive call; it is only taken with `retried` false and sets it to true. -/
def do_retry {σ : Type} (env : Env σ) (cn : Nat) (a : Args) (retried : Bool)
    (s : State σ) : Called σ :=
  let v := env.is_jump_valid cn s.ext
  let s1 : State σ := { s with ext := v.2 }
  if v.1 = true then
    let r := env.func cn a.toList s1.ext
    { res := r.1, st := { s1 with ext := r.2 },
      evs := [Event.is_jump_valid cn true, Event.func cn a.toList r.1] }
  else
    if _h : (cn ≥ s1.hyp_text_start ∧ cn < s1.hyp_text_end) ∧
        s1.hostflags &&& HOST_KVM_TRAMPOLINE_LOCK = 0 ∧ retried = false then
      let r := invoke env Fn.add_jump [cn] s1
      if r.res = 0 then
        let t := do_retry env cn a true r.st
        { res := t.res, st := t.st, evs := Event.is_jump_valid cn false :: r.evs ++ t.evs }
      else
        { res := -EPERM, st := r.st, evs := Event.is_jump_valid cn false :: r.evs }
    else
      { res := -EPERM, st := s1, evs := [Event.is_jump_valid cn false] }
termination_by (if retried = true then 0 else 1)
decreasing_by simp [_h.2.2]

/-- The loop `for (i = next_vmid; i < PRODUCT_VMID_MAX; i++)` of `platform_get_next_vmid`,
entered with loop variable `i` and the current value of `next_vmid`; the result is the
value of `next_vmid` after the loop: `i` (as `uint32_t`) when the loop leaves through
`break` at `i`, the value on entry when it runs to its end. `remaining` counts the
iterations left before `i` reaches the bound. -/
def vmid_scan (get_guest : Int → Option Guest) (vmid_max : Int) : Nat → Int → Nat → Nat
  | 0, _, next_vmid => next_vmid
  | remaining + 1, i, next_vmid =>
    if i < vmid_max then
      if (get_guest i).isNone then toUInt32 i
      else vmid_scan get_guest vmid_max remaining (i + 1) next_vmid
    else next_vmid

/-- The function `platform_get_next_vmid(next_vmid)` of `host_platform.c`, over the
registry lookup `get_guest`. `next_vmid` is a `uint32_t`, the loop variable an `int`. -/
def platform_get_next_vmid (cfg : Config) (get_guest : Int → Option Guest)
    (next_vmid : Nat) : Nat :=
  let next_vmid := if next_vmid < cfg.GUEST_VMID_START then cfg.GUEST_VMID_START else next_vmid
  let i : Int := toInt32 next_vmid
  vmid_scan get_guest cfg.PRODUCT_VMID_MAX ((cfg.PRODUCT_VMID_MAX : Int) - i).toNat i next_vmid

/-- Wrap a collaborator call as the result of a `case` that ends in `break`. -/
def Called.toResult {σ : Type} (r : Called σ) : Result σ :=
  { out := Outcome.ret r.res, st := r.st, evs := r.evs }

/-- The body of `case HYP_HOST_MAP_STAGE1:`. -/
def case_HOST_MAP_STAGE1 {σ : Type} (cfg : Config) (env : Env σ) (a : Args)
    (s : State σ) : Result σ :=
  match env.get_guest s.ext cfg.HOST_VMID with
  | none => { out := Outcome.ret (-ENOENT), st := s, evs := [] }
  | some guest =>
    let r := invoke env Fn.mmap_range
      [guest.s1_pgd, STAGE1, a.a1, a.a2, a.a3, a.a4, KERNEL_MATTR] s
    if cfg.HOSTBLINDING_DEV = true then
      let k := invoke env Fn.add_kvm_hyp_region [a.a1, a.a2, a.a3] r.st
      if k.res ≠ 0 then
        { out := Outcome.abort, st := k.st, evs := r.evs ++ k.evs ++ [Event.HYP_ABORT] }
      else
        { out := Outcome.ret r.res, st := k.st, evs := r.evs ++ k.evs }
    else r.toResult

/-- The body of `case HYP_HOST_UNMAP_STAGE1:`; the table argument is `NULL`. -/
def case_HOST_UNMAP_STAGE1 {σ : Type} (cfg : Config) (env : Env σ) (a : Args)
    (s : State σ) : Result σ :=
  let r := invoke env Fn.unmap_range [0, STAGE1, a.a1, a.a2] s
  if cfg.HOSTBLINDING_DEV = true then
    let k := invoke env Fn.remove_kvm_hyp_region [a.a1] r.st
    { out := Outcome.ret r.res, st := k.st, evs := r.evs ++ k.evs }
  else r.toResult

/-- The body of `case HYP_HOST_PREPARE_STAGE2:`. -/
def case_HOST_PREPARE_STAGE2 {σ : Type} (cfg : Config) (env : Env σ) (a : Args)
    (s : State σ) : Result σ :=
  match env.get_guest s.ext cfg.HOST_VMID with
  | none => { out := Outcome.ret (-ENOENT), st := s, evs := [] }
  | some guest =>
    (invoke env Fn.mmap_range
      [guest.s2_pgd, STAGE2, a.a1, a.a2, a.a3, a.a4, KEEP_MATTR] s).toResult

/-- The body of `case HYP_HOST_MAP_STAGE2:`. -/
def case_HOST_MAP_STAGE2 {σ : Type} (cfg : Config) (env : Env σ) (a : Args)
    (s : State σ) : Result σ :=
  match env.get_guest s.ext cfg.HOST_VMID with
  | none => { out := Outcome.ret (-ENOENT), st := s, evs := [] }
  | some guest =>
    (invoke env Fn.mmap_range
      [guest.s2_pgd, STAGE2, a.a1, a.a2, a.a3, a.a4, KERNEL_MATTR] s).toResult

/-- The body of `case HYP_HOST_GET_VMID:`; the argument `a2` is narrowed to `uint32_t`. -/
def case_HOST_GET_VMID {σ : Type} (cfg : Config) (env : Env σ) (a : Args)
    (s : State σ) : Result σ :=
  let res := platform_get_next_vmid cfg (env.get_guest s.ext) (a.a2 % 2 ^ 32)
  let r := invoke env Fn.guest_set_vmid [a.a1, res] s
  { out := Outcome.ret res, st := r.st, evs := r.evs }

/-- The body of `case HYP_SET_HYP_TXT:`. -/
def case_SET_HYP_TXT {σ : Type} (env : Env σ) (a : Args) (s : State σ) : Result σ :=
  let s1 : State σ := { s with
    hyp_text_start := env.kern_hyp_va a.a1,
    hyp_text_end := env.kern_hyp_va a.a2,
    guest_exit := a.a3 &&& CALL_MASK,
    fpsimd_guest_restore := a.a4 &&& CALL_MASK }
  if s1.hyp_text_end ≤ s1.hyp_text_start then
    { out := Outcome.abort, st := s1, evs := [Event.HYP_ABORT] }
  else if s1.guest_exit = 0 then
    { out := Outcome.abort, st := s1, evs := [Event.HYP_ABORT] }
  else
    { out := Outcome.ret 0, st := s1, evs := [] }

/-- The body of `case HYP_SET_TPIDR:`; on the early `break` the local `res` still holds
its initial value -EINVAL. The test `a2 < 0` adds nothing on the 64-bit pattern: a negative
value is a pattern of at least 2^63, which the test against `PLATFORM_CORE_COUNT` rejects. -/
def case_SET_TPIDR {σ : Type} (cfg : Config) (a : Args) (s : State σ) : Result σ :=
  if a.a2 ≥ cfg.PLATFORM_CORE_COUNT then
    { out := Outcome.ret (-EINVAL), st := s, evs := [] }
  else
    { out := Outcome.ret 0,
      st := { s with kvm_host_data := s.kvm_host_data.set a.a2 a.a3, tpidr_el2 := a.a1 },
      evs := [] }

/-- The body of `case HYP_GUEST_MAP_STAGE2:`. -/
def case_GUEST_MAP_STAGE2 {σ : Type} (env : Env σ) (a : Args) (s : State σ) : Result σ :=
  match env.get_guest s.ext a.a1 with
  | none => { out := Outcome.ret (-ENOENT), st := s, evs := [] }
  | some guest =>
    (invoke env Fn.guest_map_range [guest.handle, a.a2, a.a3, a.a4, a.a5] s).toResult

/-- The body of `case HYP_GUEST_UNMAP_STAGE2:`. -/
def case_GUEST_UNMAP_STAGE2 {σ : Type} (env : Env σ) (a : Args) (s : State σ) : Result σ :=
  match env.get_guest s.ext a.a1 with
  | none => { out := Outcome.ret (-ENOENT), st := s, evs := [] }
  | some guest =>
    (invoke env Fn.guest_unmap_range [guest.handle, a.a2, a.a3, a.a4] s).toResult

/-- The `switch (cn)` statement of `hvccall`, entered in state `s` (after the lock was
taken, when it is taken). The value returned is that of the local `res` at the `break`;
the last branch is the `default:` case. -/
def hvccall_switch {σ : Type} (cfg : Config) (env : Env σ) (cn : Nat) (a : Args)
    (s : State σ) : Result σ :=
  if cn = HYP_HOST_MAP_STAGE1 then case_HOST_MAP_STAGE1 cfg env a s
  else if cn = HYP_HOST_UNMAP_STAGE1 then case_HOST_UNMAP_STAGE1 cfg env a s
  else if cn = HYP_HOST_PREPARE_STAGE2 then case_HOST_PREPARE_STAGE2 cfg env a s
  else if cn = HYP_HOST_MAP_STAGE2 then case_HOST_MAP_STAGE2 cfg env a s
  else if cn = HYP_HOST_BOOTSTEP then { out := Outcome.ret 0, st := s, evs := [] }
  else if cn = HYP_HOST_GET_VMID then case_HOST_GET_VMID cfg env a s
  else if cn = HYP_HOST_SET_LOCKFLAGS then (set_lockflags env a.a1 a.a2 a.a3 s).toResult
  else if cn = HYP_READ_MDCR_EL2 then { out := Outcome.ret s.mdcr_el2, st := s, evs := [] }
  else if cn = HYP_SET_HYP_TXT then case_SET_HYP_TXT env a s
  else if cn = HYP_SET_WORKMEM then
    (invoke env Fn.set_heap [env.kern_hyp_va a.a1, a.a2] s).toResult
  else if cn = HYP_SET_TPIDR then case_SET_TPIDR cfg a s
  else if cn = HYP_GUEST_MAP_STAGE2 then case_GUEST_MAP_STAGE2 env a s
  else if cn = HYP_GUEST_UNMAP_STAGE2 then case_GUEST_UNMAP_STAGE2 env a s
  else if cn = HYP_MKYOUNG ∨ cn = HYP_MKOLD ∨ cn = HYP_ISYOUNG then
    (invoke env Fn.guest_stage2_access_flag [cn, a.a1, a.a2, a.a3] s).toResult
  else if cn = HYP_INIT_GUEST then (invoke env Fn.init_guest [a.a1] s).toResult
  else if cn = HYP_FREE_GUEST then (invoke env Fn.free_guest [a.a1] s).toResult
  else if cn = HYP_UPDATE_GUEST_MEMSLOT then
    (invoke env Fn.update_memslot [a.a1, a.a2, a.a3] s).toResult
  else if cn = HYP_USER_COPY then (invoke env Fn.guest_user_copy [a.a6, a.a1, a.a2] s).toResult
  else if cn = HYP_READ_LOG then (invoke env Fn.read_log [] s).toResult
  else (do_retry env (env.kern_hyp_va cn) a false s).toResult

/-- The function `hvccall`: the C `int` it returns (or the abort), the global state it
leaves and the events it performed. -/
def hvccall {σ : Type} (cfg : Config) (env : Env σ) (cn : Nat) (a : Args)
    (s : State σ) : Result σ :=
  let ct := is_apicall cn
  if ct = CALL_TYPE_GUESTCALL ∧ s.hostflags &&& HOST_KVM_CALL_LOCK ≠ 0 then
    { out := Outcome.ret (-EPERM), st := s, evs := [] }
  else
    let vmid := env.get_current_vmid s.ext
    if vmid ≠ cfg.HOST_VMID then guest_hvccall env cn a s
    else
      let s1 := if ct ≠ 0 then spin_lock s else s
      let pre := if ct ≠ 0 then [Event.spin_lock] else []
      let r := hvccall_switch cfg env cn a s1
      match r.out with
      | Outcome.abort => { out := Outcome.abort, st := r.st, evs := pre ++ r.evs }
      | Outcome.ret res =>
        if ct ≠ 0 then
          { out := Outcome.ret (toInt32 res), st := spin_unlock r.st,
            evs := pre ++ r.evs ++ [Event.spin_unlock] }
        else
          { out := Outcome.ret (toInt32 res), st := r.st, evs := pre ++ r.evs }

/-- Calls of `hvccall` with the call number `cn`, issued one after the other with the
argument registers of the list, each in the state the previous one left. A call that
reaches `HYP_ABORT()` halts the system: no call follows it. -/
def hvccall_seq {σ : Type} (cfg : Config) (env : Env σ) (cn : Nat) :
    List Args → State σ → State σ
  | [], s => s
  | a :: rest, s =>
    match (hvccall cfg env cn a s).out with
    | Outcome.abort => (hvccall cfg env cn a s).st
    | Outcome.ret _ => hvccall_seq cfg env cn rest (hvccall cfg env cn a s).st

/-! ## Trace predicates -/

/-- Events of the legacy callback path: validity checks, `add_jump` calls, indirect calls. -/
def Event.isLegacy : Event → Bool
  | Event.is_jump_valid _ _ => true
  | Event.func _ _ _ => true
  | Event.call Fn.add_jump _ _ => true
  | _ => false

/-- Calls of `add_jump`. -/
def Event.isAddJump : Event → Bool
  | Event.call Fn.add_jump _ _ => true
  | _ => false

/-- Checks by `is_jump_valid`. -/
def Event.isJumpValid : Event → Bool
  | Event.is_jump_valid _ _ => true
  | _ => false

/-- The guard of the `add_jump` attempt, without its `!retried` part: the address lies in
the hypervisor text range and `HOST_KVM_TRAMPOLINE_LOCK` is clear. -/
def can_add_jump {σ : Type} (s : State σ) (cn : Nat) : Prop :=
  (cn ≥ s.hyp_text_start ∧ cn < s.hyp_text_end) ∧ s.hostflags &&& HOST_KVM_TRAMPOLINE_LOCK = 0

/-- The five ways through the `default:` case, as the events performed and the value left
in `res`; `can_add` is the guard `can_add_jump` at entry. -/
inductive LegacyRun (cn : Nat) (args : List Nat) (can_add : Prop) : List Event → Int → Prop where
  | valid (res : Int) :
      LegacyRun cn args can_add [Event.is_jump_valid cn true, Event.func cn args res] res
  | denied : ¬ can_add →
      LegacyRun cn args can_add [Event.is_jump_valid cn false] (-EPERM)
  | add_failed (e : Int) : can_add → e ≠ 0 →
      LegacyRun cn args can_add
        [Event.is_jump_valid cn false, Event.call Fn.add_jump [cn] e] (-EPERM)
  | retried_valid (res : Int) : can_add →
      LegacyRun cn args can_add
        [Event.is_jump_valid cn false, Event.call Fn.add_jump [cn] 0,
          Event.is_jump_valid cn true, Event.func cn args res] res
  | retried_denied : can_add →
      LegacyRun cn args can_add
        [Event.is_jump_valid cn false, Event.call Fn.add_jump [cn] 0,
          Event.is_jump_valid cn false] (-EPERM)

/-- Lock operations on `core_lock`. -/
def Event.isLock : Event → Bool
  | Event.spin_lock => true
  | Event.spin_unlock => true
  | _ => false

/-- The call numbers that have a `case` label in the `switch` of `hvccall`; every other
call number runs the `default:` case. -/
def has_case (cn : Nat) : Prop :=
  cn = HYP_HOST_MAP_STAGE1 ∨ cn = HYP_HOST_UNMAP_STAGE1 ∨ cn = HYP_HOST_PREPARE_STAGE2 ∨
  cn = HYP_HOST_MAP_STAGE2 ∨ cn = HYP_HOST_BOOTSTEP ∨ cn = HYP_HOST_GET_VMID ∨
  cn = HYP_HOST_SET_LOCKFLAGS ∨ cn = HYP_READ_MDCR_EL2 ∨ cn = HYP_SET_HYP_TXT ∨
  cn = HYP_SET_WORKMEM ∨ cn = HYP_SET_TPIDR ∨ cn = HYP_GUEST_MAP_STAGE2 ∨
  cn = HYP_GUEST_UNMAP_STAGE2 ∨ (cn = HYP_MKYOUNG ∨ cn = HYP_MKOLD ∨ cn = HYP_ISYOUNG) ∨
  cn = HYP_INIT_GUEST ∨ cn = HYP_FREE_GUEST ∨ cn = HYP_UPDATE_GUEST_MEMSLOT ∨
  cn = HYP_USER_COPY ∨ cn = HYP_READ_LOG

/-! ## A concrete platform, for evaluating the definitions -/

/-- Collaborator state of the concrete platform: the current vmid, the ids of the live
guests and the registered jump addresses. -/
structure Board where
  vmid : Nat
  guests : List Int
  jumps : List Nat
deriving DecidableEq, Repr

/-- Collaborators of the concrete platform: the registry is the list of live ids, the
jump table a list of addresses that `add_jump` extends, `kern_hyp_va` keeps the low
36 bits, every other call returns 0. -/
def boardEnv : Env Board where
  get_current_vmid := fun b => b.vmid
  get_guest := fun b i =>
    if i ∈ b.guests then some { handle := 0x1000, s1_pgd := 0x2000, s2_pgd := 0x3000 } else none
  kern_hyp_va := fun x => x % 2 ^ 36
  is_jump_valid := fun cn b => (decide (cn ∈ b.jumps), b)
  func := fun _ _ b => (0, b)
  call := fun f args b =>
    match f with
    | Fn.add_jump => (0, { b with jumps := args ++ b.jumps })
    | _ => (0, b)

/-- Configuration of the concrete platform. -/
def boardCfg : Config :=
  { HOST_VMID := 0, GUEST_VMID_START := 1, PRODUCT_VMID_MAX := 4, PLATFORM_CORE_COUNT := 2,
    HOSTBLINDING_DEV := false }

/-- Global state over a board, with the given lock flags and nothing else set. -/
def boardState (hostflags : Nat) (b : Board) : State Board :=
  { hostflags := hostflags, hyp_text_start := 0, hyp_text_end := 0, guest_exit := 0,
    fpsimd_guest_restore := 0, kvm_host_data := [0, 0], core_lock := 0, mdcr_el2 := 0,
    tpidr_el2 := 0, ext := b }

/-- The same state with the hypervisor text range set to `[0, 0x10000)`. -/
def boardText (hostflags : Nat) (b : Board) : State Board :=
  { boardState hostflags b with hyp_text_end := 0x10000 }

/-- Collaborators of a platform on which `add_jump` reports success but registers
nothing, so that a retried address is still invalid. -/
def stubbornEnv : Env Board :=
  { boardEnv with call := fun _ _ b => (0, b) }

/-- Collaborators of a platform whose `read_log` returns the fragment 0x0504030204: length
byte 4, data bytes 02 03 04 05. -/
def logEnv : Env Board :=
  { boardEnv with
    call := fun f _ b =>
      match f with
      | Fn.read_log => (0x0504030204, b)
      | _ => (0, b) }

/-- Argument registers holding 1 .. 9. -/
def boardArgs : Args :=
  { a1 := 1, a2 := 2, a3 := 3, a4 := 4, a5 := 5, a6 := 6, a7 := 7, a8 := 8, a9 := 9 }

/-! ## Theorems -/

theorem toInt32_neg_EPERM : toInt32 (-EPERM) = -EPERM := by
  with_unfolding_all decide

theorem toInt32_neg_EINVAL : toInt32 (-EINVAL) = -EINVAL := by
  with_unfolding_all decide

theorem toInt32_neg_ENOENT : toInt32 (-ENOENT) = -ENOENT := by
  with_unfolding_all decide

/-- The classification computed by `is_apicall`, by ranges. -/
theorem is_apicall_eq (cn : Nat) :
    is_apicall cn =
      if 0x9000 ≤ cn ∧ cn ≤ 0x900E then CALL_TYPE_GUESTCALL
      else if 0x8000 ≤ cn ∧ cn ≤ 0x8006 then CALL_TYPE_HOSTCALL
      else CALL_TYPE_UNKNOWN := by
  unfold is_apicall
  rfl

/-- C1. Kill-switch: for every call number in the guest-call range 0x9000..0x900E, every
argument tuple, every collaborator state (so every current vmid), when `hostflags` has
`HOST_KVM_CALL_LOCK` set, `hvccall` returns -EPERM, performs no event at all (no lock
operation, no handler call) and leaves the global state as it was. -/
theorem hvccall_kill_switch {σ : Type} (cfg : Config) (env : Env σ) (cn : Nat) (a : Args)
    (s : State σ) (hlo : 0x9000 ≤ cn) (hhi : cn ≤ 0x900E)
    (hlock : s.hostflags &&& HOST_KVM_CALL_LOCK ≠ 0) :
    hvccall cfg env cn a s = { out := Outcome.ret (-EPERM), st := s, evs := [] } := by
  have hct : is_apicall cn = CALL_TYPE_GUESTCALL := by
    rw [is_apicall_eq]
    simp [hlo, hhi]
  unfold hvccall
  simp [hct, hlock]

/-- Witness of C1: `HYP_INIT_GUEST` issued by a guest context with the call lock set. -/
theorem hvccall_kill_switch_witness :
    (0x9000 ≤ 0x9003 ∧ 0x9003 ≤ 0x900E ∧
      (boardState 0x4 ⟨7, [0, 7], []⟩).hostflags &&& HOST_KVM_CALL_LOCK ≠ 0) ∧
    hvccall boardCfg boardEnv 0x9003 boardArgs (boardState 0x4 ⟨7, [0, 7], []⟩) =
      { out := Outcome.ret (-EPERM), st := boardState 0x4 ⟨7, [0, 7], []⟩, evs := [] } :=
  ⟨⟨by decide, by decide, by decide⟩,
   hvccall_kill_switch boardCfg boardEnv 0x9003 boardArgs (boardState 0x4 ⟨7, [0, 7], []⟩)
     (by decide) (by decide) (by decide)⟩

/-- C2. Restricted guest context: when the current vmid is not `HOST_VMID` and the call
is not rejected by the kill-switch, `hvccall` returns `remove_host_range(a1, a2)` for
`HYP_SET_GUEST_MEMORY_BLINDED`, `restore_host_range(a1, a2)` for
`HYP_SET_GUEST_MEMORY_OPEN`, each called once between `spin_lock` and `spin_unlock`, and
for every other call number it returns -EINVAL with no event but the lock pair and no
change of state. -/
theorem hvccall_guest_context {σ : Type} (cfg : Config) (env : Env σ) (cn : Nat) (a : Args)
    (s : State σ) (hvmid : env.get_current_vmid s.ext ≠ cfg.HOST_VMID)
    (hpass : ¬ (is_apicall cn = CALL_TYPE_GUESTCALL ∧ s.hostflags &&& HOST_KVM_CALL_LOCK ≠ 0)) :
    (cn = HYP_SET_GUEST_MEMORY_BLINDED →
      (hvccall cfg env cn a s).out =
          Outcome.ret (env.call Fn.remove_host_range [a.a1, a.a2] s.ext).1 ∧
        (hvccall cfg env cn a s).evs =
          [Event.spin_lock,
            Event.call Fn.remove_host_range [a.a1, a.a2]
              (env.call Fn.remove_host_range [a.a1, a.a2] s.ext).1,
            Event.spin_unlock]) ∧
    (cn = HYP_SET_GUEST_MEMORY_OPEN →
      (hvccall cfg env cn a s).out =
          Outcome.ret (env.call Fn.restore_host_range [a.a1, a.a2] s.ext).1 ∧
        (hvccall cfg env cn a s).evs =
          [Event.spin_lock,
            Event.call Fn.restore_host_range [a.a1, a.a2]
              (env.call Fn.restore_host_range [a.a1, a.a2] s.ext).1,
            Event.spin_unlock]) ∧
    (cn ≠ HYP_SET_GUEST_MEMORY_BLINDED → cn ≠ HYP_SET_GUEST_MEMORY_OPEN →
      (hvccall cfg env cn a s).out = Outcome.ret (-EINVAL) ∧
        (hvccall cfg env cn a s).evs = [Event.spin_lock, Event.spin_unlock] ∧
        (hvccall cfg env cn a s).st = { s with core_lock := 0 }) := by
  have hrun : hvccall cfg env cn a s = guest_hvccall env cn a s := by
    unfold hvccall
    rw [if_neg hpass]
    simp only [hvmid, ne_eq, not_false_eq_true, if_true]
  rw [hrun]
  refine ⟨?_, ?_, ?_⟩
  · intro h
    subst h
    simp [guest_hvccall, invoke, spin_lock]
  · intro h
    subst h
    simp [guest_hvccall, invoke, spin_lock]
  · intro h1 h2
    simp at h1 h2
    simp [guest_hvccall, h1, h2, spin_lock, spin_unlock]

/-- Witness of C2: a guest (vmid 7) issues `HYP_SET_GUEST_MEMORY_BLINDED`, then
`HYP_SET_GUEST_MEMORY_OPEN`, then `HYP_HOST_MAP_STAGE1`, with the call lock clear. -/
theorem hvccall_guest_context_witness :
    (hvccall boardCfg boardEnv 0x900C boardArgs (boardState 0 ⟨7, [0, 7], []⟩)).evs =
        [Event.spin_lock, Event.call Fn.remove_host_range [1, 2] 0, Event.spin_unlock] ∧
      (hvccall boardCfg boardEnv 0x900B boardArgs (boardState 0 ⟨7, [0, 7], []⟩)).evs =
        [Event.spin_lock, Event.call Fn.restore_host_range [1, 2] 0, Event.spin_unlock] ∧
      (hvccall boardCfg boardEnv 0x8000 boardArgs (boardState 0 ⟨7, [0, 7], []⟩)).out =
        Outcome.ret (-EINVAL) :=
  ⟨((hvccall_guest_context boardCfg boardEnv 0x900C boardArgs (boardState 0 ⟨7, [0, 7], []⟩)
      (by decide) (by decide)).1 rfl).2,
   ((hvccall_guest_context boardCfg boardEnv 0x900B boardArgs (boardState 0 ⟨7, [0, 7], []⟩)
      (by decide) (by decide)).2.1 rfl).2,
   ((hvccall_guest_context boardCfg boardEnv 0x8000 boardArgs (boardState 0 ⟨7, [0, 7], []⟩)
      (by decide) (by decide)).2.2 (by decide) (by decide)).1⟩

/-- C3, evaluated: `is_apicall` classifies `HYP_HOST_PREPARE_STAGE1` (0x8007) and
`HYP_HOST_PREPARE_STAGE2` (0x8008) as `CALL_TYPE_UNKNOWN`, not as `CALL_TYPE_HOSTCALL`,
because `HYP_LAST_HOSTCALL` is `HYP_HOST_SET_LOCKFLAGS` (0x8006). -/
theorem is_apicall_prepare_stage_unknown :
    HYP_LAST_HOSTCALL = 0x8006 ∧
      is_apicall HYP_HOST_PREPARE_STAGE1 = CALL_TYPE_UNKNOWN ∧
      is_apicall HYP_HOST_PREPARE_STAGE2 = CALL_TYPE_UNKNOWN ∧
      is_apicall HYP_HOST_PREPARE_STAGE2 ≠ CALL_TYPE_HOSTCALL := by
  decide

/-- C4, evaluated: in host context with the host registered, `HYP_HOST_PREPARE_STAGE2`
(0x8008) calls `mmap_range` on the host stage-2 root with `KEEP_MATTR`, and the call
performs no `spin_lock` and no `spin_unlock`: the `mmap_range` call is its only event. -/
theorem hvccall_prepare_stage2_unlocked :
    (hvccall boardCfg boardEnv HYP_HOST_PREPARE_STAGE2 boardArgs
        (boardState 0 ⟨0, [0], []⟩)).evs =
      [Event.call Fn.mmap_range [0x3000, STAGE2, 1, 2, 3, 4, KEEP_MATTR] 0] ∧
    (hvccall boardCfg boardEnv HYP_HOST_PREPARE_STAGE2 boardArgs
        (boardState 0 ⟨0, [0], []⟩)).out = Outcome.ret 0 ∧
    Event.spin_lock ∉ (hvccall boardCfg boardEnv HYP_HOST_PREPARE_STAGE2 boardArgs
        (boardState 0 ⟨0, [0], []⟩)).evs := by
  refine ⟨?_, ?_, ?_⟩ <;>
    simp [hvccall, hvccall_switch, case_HOST_PREPARE_STAGE2, is_apicall, boardEnv, boardState,
      boardCfg, boardArgs, Called.toResult, invoke, toInt32]

/-! ### The legacy callback path -/

/-- One pass through the `do_retry:` block, as an equation. -/
theorem do_retry_eq {σ : Type} (env : Env σ) (cn : Nat) (a : Args) (retried : Bool)
    (s : State σ) :
    do_retry env cn a retried s =
      if (env.is_jump_valid cn s.ext).1 = true then
        { res := (env.func cn a.toList (env.is_jump_valid cn s.ext).2).1,
          st := { s with ext := (env.func cn a.toList (env.is_jump_valid cn s.ext).2).2 },
          evs := [Event.is_jump_valid cn true,
            Event.func cn a.toList (env.func cn a.toList (env.is_jump_valid cn s.ext).2).1] }
      else
        if (cn ≥ s.hyp_text_start ∧ cn < s.hyp_text_end) ∧
            s.hostflags &&& HOST_KVM_TRAMPOLINE_LOCK = 0 ∧ retried = false then
          if (invoke env Fn.add_jump [cn]
              { s with ext := (env.is_jump_valid cn s.ext).2 }).res = 0 then
            { res := (do_retry env cn a true (invoke env Fn.add_jump [cn]
                { s with ext := (env.is_jump_valid cn s.ext).2 }).st).res,
              st := (do_retry env cn a true (invoke env Fn.add_jump [cn]
                { s with ext := (env.is_jump_valid cn s.ext).2 }).st).st,
              evs := Event.is_jump_valid cn false ::
                (invoke env Fn.add_jump [cn]
                  { s with ext := (env.is_jump_valid cn s.ext).2 }).evs ++
                (do_retry env cn a true (invoke env Fn.add_jump [cn]
                  { s with ext := (env.is_jump_valid cn s.ext).2 }).st).evs }
          else
            { res := -EPERM,
              st := (invoke env Fn.add_jump [cn]
                { s with ext := (env.is_jump_valid cn s.ext).2 }).st,
              evs := Event.is_jump_valid cn false ::
                (invoke env Fn.add_jump [cn]
                  { s with ext := (env.is_jump_valid cn s.ext).2 }).evs }
        else
          { res := -EPERM, st := { s with ext := (env.is_jump_valid cn s.ext).2 },
            evs := [Event.is_jump_valid cn false] } := by
  rw [do_retry]
  simp only []
  split_ifs <;> rfl

/-- The legacy path takes one of the five ways of `LegacyRun`. -/
theorem do_retry_run {σ : Type} (env : Env σ) (cn : Nat) (a : Args) (s : State σ) :
    LegacyRun cn a.toList (can_add_jump s cn) (do_retry env cn a false s).evs
      (do_retry env cn a false s).res := by
  rw [do_retry_eq]
  split_ifs with h1 h2 h3
  · exact LegacyRun.valid _
  · rw [do_retry_eq]
    simp only [Bool.true_eq_false, and_false, if_false]
    split_ifs with h4
    · simp only [invoke] at h3
      simp only [invoke, h3, List.cons_append, List.nil_append]
      exact LegacyRun.retried_valid _ ⟨h2.1, h2.2.1⟩
    · simp only [invoke] at h3
      simp only [invoke, h3, List.cons_append, List.nil_append]
      exact LegacyRun.retried_denied ⟨h2.1, h2.2.1⟩
  · simp only [invoke] at h3 ⊢
    exact LegacyRun.add_failed _ ⟨h2.1, h2.2.1⟩ h3
  · apply LegacyRun.denied
    intro hc
    exact h2 ⟨hc.1, hc.2, rfl⟩

/-! ### Events of the recognised cases -/

theorem invoke_evs_plain {σ : Type} (env : Env σ) (f : Fn) (args : List Nat) (s : State σ)
    (hf : f ≠ Fn.add_jump) : ∀ e ∈ (invoke env f args s).evs, e.isLegacy = false := by
  intro e he
  simp only [invoke, List.mem_singleton] at he
  subst he
  cases f <;> first | rfl | exact absurd rfl hf

theorem set_lockflags_evs_plain {σ : Type} (env : Env σ) (flags addr sz : Nat) (s : State σ) :
    ∀ e ∈ (set_lockflags env flags addr sz s).evs, e.isLegacy = false := by
  unfold set_lockflags
  simp only [invoke]
  split_ifs <;> simp [Event.isLegacy]

theorem case_HOST_MAP_STAGE1_plain {σ : Type} (cfg : Config) (env : Env σ) (a : Args)
    (s : State σ) : ∀ e ∈ (case_HOST_MAP_STAGE1 cfg env a s).evs, e.isLegacy = false := by
  unfold case_HOST_MAP_STAGE1
  split
  · simp
  · simp only [invoke, Called.toResult]
    split_ifs <;> simp [Event.isLegacy]

theorem case_HOST_UNMAP_STAGE1_plain {σ : Type} (cfg : Config) (env : Env σ) (a : Args)
    (s : State σ) : ∀ e ∈ (case_HOST_UNMAP_STAGE1 cfg env a s).evs, e.isLegacy = false := by
  unfold case_HOST_UNMAP_STAGE1
  simp only [invoke, Called.toResult]
  split_ifs <;> simp [Event.isLegacy]

theorem case_HOST_PREPARE_STAGE2_plain {σ : Type} (cfg : Config) (env : Env σ) (a : Args)
    (s : State σ) : ∀ e ∈ (case_HOST_PREPARE_STAGE2 cfg env a s).evs, e.isLegacy = false := by
  unfold case_HOST_PREPARE_STAGE2
  split <;> simp [invoke, Called.toResult, Event.isLegacy]

theorem case_HOST_MAP_STAGE2_plain {σ : Type} (cfg : Config) (env : Env σ) (a : Args)
    (s : State σ) : ∀ e ∈ (case_HOST_MAP_STAGE2 cfg env a s).evs, e.isLegacy = false := by
  unfold case_HOST_MAP_STAGE2
  split <;> simp [invoke, Called.toResult, Event.isLegacy]

theorem case_HOST_GET_VMID_plain {σ : Type} (cfg : Config) (env : Env σ) (a : Args)
    (s : State σ) : ∀ e ∈ (case_HOST_GET_VMID cfg env a s).evs, e.isLegacy = false := by
  unfold case_HOST_GET_VMID
  simp [invoke, Event.isLegacy]

theorem case_SET_HYP_TXT_plain {σ : Type} (env : Env σ) (a : Args)
    (s : State σ) : ∀ e ∈ (case_SET_HYP_TXT env a s).evs, e.isLegacy = false := by
  unfold case_SET_HYP_TXT
  simp only []
  split_ifs <;> simp [Event.isLegacy]

theorem case_SET_TPIDR_plain {σ : Type} (cfg : Config) (a : Args)
    (s : State σ) : ∀ e ∈ (case_SET_TPIDR cfg a s).evs, e.isLegacy = false := by
  unfold case_SET_TPIDR
  split_ifs <;> simp

theorem case_GUEST_MAP_STAGE2_plain {σ : Type} (env : Env σ) (a : Args)
    (s : State σ) : ∀ e ∈ (case_GUEST_MAP_STAGE2 env a s).evs, e.isLegacy = false := by
  unfold case_GUEST_MAP_STAGE2
  split <;> simp [invoke, Called.toResult, Event.isLegacy]

theorem case_GUEST_UNMAP_STAGE2_plain {σ : Type} (env : Env σ) (a : Args)
    (s : State σ) : ∀ e ∈ (case_GUEST_UNMAP_STAGE2 env a s).evs, e.isLegacy = false := by
  unfold case_GUEST_UNMAP_STAGE2
  split <;> simp [invoke, Called.toResult, Event.isLegacy]

/-- The `switch` either runs a recognised case, whose events are no legacy events, or it
runs the `default:` case on the translated call number. -/
theorem hvccall_switch_shape {σ : Type} (cfg : Config) (env : Env σ) (cn : Nat) (a : Args)
    (s : State σ) :
    (∀ e ∈ (hvccall_switch cfg env cn a s).evs, e.isLegacy = false) ∨
      hvccall_switch cfg env cn a s =
        (do_retry env (env.kern_hyp_va cn) a false s).toResult := by
  unfold hvccall_switch
  by_cases h0 : cn = HYP_HOST_MAP_STAGE1
  · rw [if_pos h0]; exact Or.inl (case_HOST_MAP_STAGE1_plain cfg env a s)
  rw [if_neg h0]
  by_cases h1 : cn = HYP_HOST_UNMAP_STAGE1
  · rw [if_pos h1]; exact Or.inl (case_HOST_UNMAP_STAGE1_plain cfg env a s)
  rw [if_neg h1]
  by_cases h2 : cn = HYP_HOST_PREPARE_STAGE2
  · rw [if_pos h2]; exact Or.inl (case_HOST_PREPARE_STAGE2_plain cfg env a s)
  rw [if_neg h2]
  by_cases h3 : cn = HYP_HOST_MAP_STAGE2
  · rw [if_pos h3]; exact Or.inl (case_HOST_MAP_STAGE2_plain cfg env a s)
  rw [if_neg h3]
  by_cases h4 : cn = HYP_HOST_BOOTSTEP
  · rw [if_pos h4]; exact Or.inl (by simp)
  rw [if_neg h4]
  by_cases h5 : cn = HYP_HOST_GET_VMID
  · rw [if_pos h5]; exact Or.inl (case_HOST_GET_VMID_plain cfg env a s)
  rw [if_neg h5]
  by_cases h6 : cn = HYP_HOST_SET_LOCKFLAGS
  · rw [if_pos h6]; exact Or.inl (set_lockflags_evs_plain env _ _ _ s)
  rw [if_neg h6]
  by_cases h7 : cn = HYP_READ_MDCR_EL2
  · rw [if_pos h7]; exact Or.inl (by simp)
  rw [if_neg h7]
  by_cases h8 : cn = HYP_SET_HYP_TXT
  · rw [if_pos h8]; exact Or.inl (case_SET_HYP_TXT_plain env a s)
  rw [if_neg h8]
  by_cases h9 : cn = HYP_SET_WORKMEM
  · rw [if_pos h9]; exact Or.inl (invoke_evs_plain env _ _ s (by decide))
  rw [if_neg h9]
  by_cases h10 : cn = HYP_SET_TPIDR
  · rw [if_pos h10]; exact Or.inl (case_SET_TPIDR_plain cfg a s)
  rw [if_neg h10]
  by_cases h11 : cn = HYP_GUEST_MAP_STAGE2
  · rw [if_pos h11]; exact Or.inl (case_GUEST_MAP_STAGE2_plain env a s)
  rw [if_neg h11]
  by_cases h12 : cn = HYP_GUEST_UNMAP_STAGE2
  · rw [if_pos h12]; exact Or.inl (case_GUEST_UNMAP_STAGE2_plain env a s)
  rw [if_neg h12]
  by_cases h13 : cn = HYP_MKYOUNG ∨ cn = HYP_MKOLD ∨ cn = HYP_ISYOUNG
  · rw [if_pos h13]; exact Or.inl (invoke_evs_plain env _ _ s (by decide))
  rw [if_neg h13]
  by_cases h14 : cn = HYP_INIT_GUEST
  · rw [if_pos h14]; exact Or.inl (invoke_evs_plain env _ _ s (by decide))
  rw [if_neg h14]
  by_cases h15 : cn = HYP_FREE_GUEST
  · rw [if_pos h15]; exact Or.inl (invoke_evs_plain env _ _ s (by decide))
  rw [if_neg h15]
  by_cases h16 : cn = HYP_UPDATE_GUEST_MEMSLOT
  · rw [if_pos h16]; exact Or.inl (invoke_evs_plain env _ _ s (by decide))
  rw [if_neg h16]
  by_cases h17 : cn = HYP_USER_COPY
  · rw [if_pos h17]; exact Or.inl (invoke_evs_plain env _ _ s (by decide))
  rw [if_neg h17]
  by_cases h18 : cn = HYP_READ_LOG
  · rw [if_pos h18]; exact Or.inl (invoke_evs_plain env _ _ s (by decide))
  rw [if_neg h18]
  exact Or.inr rfl

/-! ### Shape of a dispatcher call -/

theorem guest_hvccall_plain {σ : Type} (env : Env σ) (cn : Nat) (a : Args) (s : State σ) :
    ∀ e ∈ (guest_hvccall env cn a s).evs, e.isLegacy = false := by
  unfold guest_hvccall
  simp only [invoke]
  split_ifs <;> simp [Event.isLegacy]

/-- In host context, with the kill-switch not firing, `hvccall` is the `switch` between
the conditional lock operations, followed by the conversion of `res` to `int`. -/
theorem hvccall_host {σ : Type} (cfg : Config) (env : Env σ) (cn : Nat) (a : Args)
    (s : State σ)
    (hpass : ¬ (is_apicall cn = CALL_TYPE_GUESTCALL ∧ s.hostflags &&& HOST_KVM_CALL_LOCK ≠ 0))
    (hvmid : env.get_current_vmid s.ext = cfg.HOST_VMID) :
    hvccall cfg env cn a s =
      if is_apicall cn ≠ 0 then
        match (hvccall_switch cfg env cn a (spin_lock s)).out with
        | Outcome.abort =>
          { out := Outcome.abort, st := (hvccall_switch cfg env cn a (spin_lock s)).st,
            evs := Event.spin_lock :: (hvccall_switch cfg env cn a (spin_lock s)).evs }
        | Outcome.ret res =>
          { out := Outcome.ret (toInt32 res),
            st := spin_unlock (hvccall_switch cfg env cn a (spin_lock s)).st,
            evs := Event.spin_lock :: (hvccall_switch cfg env cn a (spin_lock s)).evs ++
              [Event.spin_unlock] }
      else
        match (hvccall_switch cfg env cn a s).out with
        | Outcome.abort =>
          { out := Outcome.abort, st := (hvccall_switch cfg env cn a s).st,
            evs := (hvccall_switch cfg env cn a s).evs }
        | Outcome.ret res =>
          { out := Outcome.ret (toInt32 res), st := (hvccall_switch cfg env cn a s).st,
            evs := (hvccall_switch cfg env cn a s).evs } := by
  unfold hvccall
  rw [if_neg hpass]
  simp only [hvmid, ne_eq, not_true_eq_false, if_false]
  by_cases hct : is_apicall cn = 0
  · simp only [hct, not_true_eq_false, if_false, List.nil_append]
  · simp only [hct, not_false_eq_true, if_true, List.singleton_append, List.cons_append,
      List.nil_append]

theorem can_add_jump_spin_lock {σ : Type} (s : State σ) (cn : Nat) :
    can_add_jump (spin_lock s) cn ↔ can_add_jump s cn := Iff.rfl

/-- Events of a call of `hvccall`: legacy events occur only in one contiguous block `mid`,
which is empty or one of the five ways of `LegacyRun` at the translated call number; in
the latter case `hvccall` returns the value left in `res`, converted to `int`. -/
theorem hvccall_shape {σ : Type} (cfg : Config) (env : Env σ) (cn : Nat) (a : Args)
    (s : State σ) :
    ∃ pre mid post, (hvccall cfg env cn a s).evs = pre ++ mid ++ post ∧
      (∀ e ∈ pre, e.isLegacy = false) ∧ (∀ e ∈ post, e.isLegacy = false) ∧
      (mid = [] ∨ ∃ res, LegacyRun (env.kern_hyp_va cn) a.toList
          (can_add_jump s (env.kern_hyp_va cn)) mid res ∧
        (hvccall cfg env cn a s).out = Outcome.ret (toInt32 res)) := by
  by_cases hpass : is_apicall cn = CALL_TYPE_GUESTCALL ∧ s.hostflags &&& HOST_KVM_CALL_LOCK ≠ 0
  · refine ⟨[], [], [], ?_, by simp, by simp, Or.inl rfl⟩
    unfold hvccall
    rw [if_pos hpass]
    rfl
  by_cases hvmid : env.get_current_vmid s.ext = cfg.HOST_VMID
  · rw [hvccall_host cfg env cn a s hpass hvmid]
    by_cases hct : is_apicall cn = 0
    · rw [if_neg (not_not.mpr hct)]
      rcases hvccall_switch_shape cfg env cn a s with hp | hd
      · refine ⟨(hvccall_switch cfg env cn a s).evs, [], [], ?_, hp, by simp, Or.inl rfl⟩
        split <;> simp
      · rw [hd]
        refine ⟨[], (do_retry env (env.kern_hyp_va cn) a false s).evs, [], by simp [Called.toResult],
          by simp, by simp, Or.inr ⟨_, do_retry_run env _ a s, rfl⟩⟩
    · rw [if_pos hct]
      rcases hvccall_switch_shape cfg env cn a (spin_lock s) with hp | hd
      · split
        · refine ⟨Event.spin_lock :: (hvccall_switch cfg env cn a (spin_lock s)).evs, [], [],
            by simp, ?_, by simp, Or.inl rfl⟩
          intro e he
          rcases List.mem_cons.mp he with h | h
          · subst h; rfl
          · exact hp e h
        · refine ⟨Event.spin_lock :: (hvccall_switch cfg env cn a (spin_lock s)).evs, [],
            [Event.spin_unlock], by simp, ?_, by simp [Event.isLegacy], Or.inl rfl⟩
          intro e he
          rcases List.mem_cons.mp he with h | h
          · subst h; rfl
          · exact hp e h
      · rw [hd]
        refine ⟨[Event.spin_lock], (do_retry env (env.kern_hyp_va cn) a false (spin_lock s)).evs,
          [Event.spin_unlock], by simp [Called.toResult], by simp [Event.isLegacy],
          by simp [Event.isLegacy],
          Or.inr ⟨_, do_retry_run env _ a (spin_lock s), rfl⟩⟩
  · have hrun : hvccall cfg env cn a s = guest_hvccall env cn a s := by
      unfold hvccall
      rw [if_neg hpass]
      simp only [hvmid, ne_eq, not_false_eq_true, if_true]
    rw [hrun]
    exact ⟨(guest_hvccall env cn a s).evs, [], [], by simp, guest_hvccall_plain env cn a s,
      by simp, Or.inl rfl⟩

/-! ### Locating a legacy event in the events of a call -/

theorem mem_mid_of_legacy (p mid q : List Event) (e : Event)
    (hp : ∀ x ∈ p, x.isLegacy = false) (hq : ∀ x ∈ q, x.isLegacy = false)
    (he : e.isLegacy = true) (h : e ∈ p ++ mid ++ q) : e ∈ mid := by
  simp only [List.mem_append] at h
  rcases h with (h | h) | h
  · rw [hp e h] at he; cases he
  · exact h
  · rw [hq e h] at he; cases he

/-- A legacy event of `p ++ mid ++ q`, with `p` and `q` free of legacy events, lies in
`mid`, and the split around it is a split of `mid`. -/
theorem split_at_legacy (p mid q pre post : List Event) (e : Event)
    (hp : ∀ x ∈ p, x.isLegacy = false) (hq : ∀ x ∈ q, x.isLegacy = false)
    (he : e.isLegacy = true) (h : p ++ mid ++ q = pre ++ e :: post) :
    ∃ m1 m2, mid = m1 ++ e :: m2 ∧ pre = p ++ m1 ∧ post = m2 ++ q := by
  have hnp : e ∉ p := fun hm => by rw [hp e hm] at he; cases he
  have hnq : e ∉ q := fun hm => by rw [hq e hm] at he; cases he
  rw [List.append_assoc, List.append_eq_append_iff] at h
  rcases h with ⟨a1, h1, h2⟩ | ⟨c1, h1, h2⟩
  · rw [List.append_eq_append_iff] at h2
    rcases h2 with ⟨a2, h3, h4⟩ | ⟨c2, h3, h4⟩
    · exact absurd (by rw [h4]; simp) hnq
    · rw [List.cons_eq_append_iff] at h4
      rcases h4 with ⟨h5, h6⟩ | ⟨c3, h5, h6⟩
      · exact absurd (by rw [h6]; simp) hnq
      · exact ⟨a1, c3, by rw [h3, h5], h1, h6⟩
  · rw [List.cons_eq_append_iff] at h2
    rcases h2 with ⟨h5, h6⟩ | ⟨c3, h5, h6⟩
    · subst h5
      rw [List.append_nil] at h1
      rcases mid with _ | ⟨m, mid⟩
      · rw [List.nil_append] at h6
        exact absurd (by rw [h6]; simp) hnq
      · rw [List.cons_append, List.cons.injEq] at h6
        exact ⟨[], mid, by rw [h6.1]; rfl, by rw [h1]; simp, h6.2.symm⟩
    · exact absurd (by rw [h1, h5]; simp) hnp

/-! ### Evaluations on the concrete platform -/

/-- The unrecognised call 0x8003 with an empty text range: checked once, denied. -/
theorem board_unmap_stage2_denied :
    (hvccall boardCfg boardEnv HYP_HOST_UNMAP_STAGE2 boardArgs (boardState 0 ⟨0, [0], []⟩)).evs =
        [Event.spin_lock, Event.is_jump_valid 0x8003 false, Event.spin_unlock] ∧
      (hvccall boardCfg boardEnv HYP_HOST_UNMAP_STAGE2 boardArgs
        (boardState 0 ⟨0, [0], []⟩)).out = Outcome.ret (-EPERM) := by
  constructor <;>
  simp [hvccall, hvccall_switch, is_apicall, do_retry_eq, boardEnv, boardState, boardCfg,
    boardArgs, Called.toResult, spin_lock, invoke, Args.toList, toInt32]

/-- The unrecognised call 0x8003 with the address inside the text range: checked, registered
by `add_jump`, checked again, called. -/
theorem board_unmap_stage2_registered :
    (hvccall boardCfg boardEnv HYP_HOST_UNMAP_STAGE2 boardArgs (boardText 0 ⟨0, [0], []⟩)).evs =
      [Event.spin_lock, Event.is_jump_valid 0x8003 false, Event.call Fn.add_jump [0x8003] 0,
        Event.is_jump_valid 0x8003 true, Event.func 0x8003 [1, 2, 3, 4, 5, 6, 7, 8, 9] 0,
        Event.spin_unlock] := by
  simp [hvccall, hvccall_switch, is_apicall, do_retry_eq, boardEnv, boardText, boardState,
    boardCfg, boardArgs, Called.toResult, spin_lock, invoke, Args.toList]

/-- The same call when `add_jump` succeeds but the address stays invalid. -/
theorem board_unmap_stage2_retried_denied :
    (hvccall boardCfg stubbornEnv HYP_HOST_UNMAP_STAGE2 boardArgs
        (boardText 0 ⟨0, [0], []⟩)).evs =
      [Event.spin_lock, Event.is_jump_valid 0x8003 false, Event.call Fn.add_jump [0x8003] 0,
        Event.is_jump_valid 0x8003 false, Event.spin_unlock] := by
  simp [hvccall, hvccall_switch, is_apicall, do_retry_eq, stubbornEnv, boardEnv, boardText,
    boardState, boardCfg, boardArgs, Called.toResult, spin_lock, invoke, Args.toList]

/-- C5. No unvalidated indirect call. In every execution of `hvccall`: (1) wherever the
events split around an indirect call `func`, the address called is the translated call
number `kern_hyp_va(cn)` and the event just before it is `is_jump_valid` of that address
answering true; (2) wherever they split around a call of `add_jump`, its argument is the
translated call number, the event just before it is `is_jump_valid` of that address
answering false, the address lies in `[hyp_text_start, hyp_text_end)` and
`HOST_KVM_TRAMPOLINE_LOCK` is clear; (3) when the validity check answered false and the
address is outside the text range, or the trampoline lock is set, or `add_jump` returned
non-zero, `hvccall` returns -EPERM and made no indirect call. -/
theorem hvccall_indirect_call_validated {σ : Type} (cfg : Config) (env : Env σ) (cn : Nat)
    (a : Args) (s : State σ) :
    (∀ pre post c args res,
      (hvccall cfg env cn a s).evs = pre ++ Event.func c args res :: post →
        c = env.kern_hyp_va cn ∧ ∃ pre', pre = pre' ++ [Event.is_jump_valid c true]) ∧
    (∀ pre post args res,
      (hvccall cfg env cn a s).evs = pre ++ Event.call Fn.add_jump args res :: post →
        args = [env.kern_hyp_va cn] ∧
        (∃ pre', pre = pre' ++ [Event.is_jump_valid (env.kern_hyp_va cn) false]) ∧
        s.hyp_text_start ≤ env.kern_hyp_va cn ∧ env.kern_hyp_va cn < s.hyp_text_end ∧
        s.hostflags &&& HOST_KVM_TRAMPOLINE_LOCK = 0) ∧
    (Event.is_jump_valid (env.kern_hyp_va cn) false ∈ (hvccall cfg env cn a s).evs →
      (¬ (s.hyp_text_start ≤ env.kern_hyp_va cn ∧ env.kern_hyp_va cn < s.hyp_text_end) ∨
        s.hostflags &&& HOST_KVM_TRAMPOLINE_LOCK ≠ 0 ∨
        ∃ res, res ≠ 0 ∧
          Event.call Fn.add_jump [env.kern_hyp_va cn] res ∈ (hvccall cfg env cn a s).evs) →
      (hvccall cfg env cn a s).out = Outcome.ret (-EPERM) ∧
        ∀ c args res, Event.func c args res ∉ (hvccall cfg env cn a s).evs) := by
  obtain ⟨p, mid, q, hevs, hp, hq, hmid⟩ := hvccall_shape cfg env cn a s
  refine ⟨?_, ?_, ?_⟩
  · intro pre post c args res h
    rw [hevs] at h
    obtain ⟨m1, m2, hm, hpre, -⟩ :=
      split_at_legacy p mid q pre post (Event.func c args res) hp hq rfl h
    rcases hmid with hnil | ⟨r, hrun, -⟩
    · rw [hnil] at hm
      exact absurd hm (by simp)
    · cases hrun <;>
        rcases m1 with _ | ⟨x1, _ | ⟨x2, _ | ⟨x3, _ | ⟨x4, m1⟩⟩⟩⟩ <;>
        simp at hm
      · obtain ⟨h1, h2, -⟩ := hm
        subst h1
        obtain ⟨hc, -⟩ := h2
        subst hc
        exact ⟨rfl, p, hpre⟩
      · obtain ⟨h1, h2, h3, h4, -⟩ := hm
        subst h1 h2 h3
        obtain ⟨hc, -⟩ := h4
        subst hc
        exact ⟨rfl, p ++ [Event.is_jump_valid (env.kern_hyp_va cn) false,
          Event.call Fn.add_jump [env.kern_hyp_va cn] 0], by rw [hpre]; simp⟩
  · intro pre post args res h
    rw [hevs] at h
    obtain ⟨m1, m2, hm, hpre, -⟩ :=
      split_at_legacy p mid q pre post (Event.call Fn.add_jump args res) hp hq rfl h
    rcases hmid with hnil | ⟨r, hrun, -⟩
    · rw [hnil] at hm
      exact absurd hm (by simp)
    · cases hrun <;>
        rcases m1 with _ | ⟨x1, _ | ⟨x2, _ | ⟨x3, _ | ⟨x4, m1⟩⟩⟩⟩ <;>
        simp at hm
      all_goals
        obtain ⟨h1, h2, -⟩ := hm
        subst h1
        refine ⟨h2.1.symm, ⟨p, hpre⟩, ?_⟩
        rename_i hcan
        first
          | exact ⟨hcan.1.1, hcan.1.2, hcan.2⟩
          | (rename_i hcan2; exact ⟨hcan2.1.1, hcan2.1.2, hcan2.2⟩)
  · intro hmem hwhy
    have hmem' := mem_mid_of_legacy p mid q
      (Event.is_jump_valid (env.kern_hyp_va cn) false) hp hq rfl (hevs ▸ hmem)
    have hnofunc : (∀ c args res, Event.func c args res ∉ mid) →
        ∀ c args res, Event.func c args res ∉ (hvccall cfg env cn a s).evs := by
      intro hno c args res hin
      exact hno c args res
        (mem_mid_of_legacy p mid q (Event.func c args res) hp hq rfl (hevs ▸ hin))
    rcases hmid with hnil | ⟨r, hrun, hout⟩
    · rw [hnil] at hmem'
      cases hmem'
    · cases hrun
      · simp at hmem'
      · exact ⟨by rw [hout, toInt32_neg_EPERM], hnofunc (by simp)⟩
      · exact ⟨by rw [hout, toInt32_neg_EPERM], hnofunc (by simp)⟩
      · rename_i hcan
        rcases hwhy with h | h | ⟨res, hres, hin⟩
        · exact absurd hcan.1 h
        · exact absurd hcan.2 h
        · have := mem_mid_of_legacy p _ q
            (Event.call Fn.add_jump [env.kern_hyp_va cn] res) hp hq rfl (hevs ▸ hin)
          simp at this
          exact absurd this hres
      · exact ⟨by rw [hout, toInt32_neg_EPERM], hnofunc (by simp)⟩



/-- Witness of C5 on the concrete platform: the registered callback 0x8003 is called right
after its second, successful check; `add_jump` is called right after the failed first
check, inside the text range; with an empty text range the call is denied with -EPERM. -/
theorem hvccall_indirect_call_validated_witness :
    ((0x8003 : Nat) = boardEnv.kern_hyp_va HYP_HOST_UNMAP_STAGE2 ∧
      ∃ pre', [Event.spin_lock, Event.is_jump_valid 0x8003 false,
          Event.call Fn.add_jump [0x8003] 0, Event.is_jump_valid 0x8003 true] =
        pre' ++ [Event.is_jump_valid 0x8003 true]) ∧
    (([0x8003] : List Nat) = [boardEnv.kern_hyp_va HYP_HOST_UNMAP_STAGE2] ∧
      (∃ pre', [Event.spin_lock, Event.is_jump_valid 0x8003 false] =
        pre' ++ [Event.is_jump_valid (boardEnv.kern_hyp_va HYP_HOST_UNMAP_STAGE2) false]) ∧
      (boardText 0 ⟨0, [0], []⟩).hyp_text_start ≤ boardEnv.kern_hyp_va HYP_HOST_UNMAP_STAGE2 ∧
      boardEnv.kern_hyp_va HYP_HOST_UNMAP_STAGE2 < (boardText 0 ⟨0, [0], []⟩).hyp_text_end ∧
      (boardText 0 ⟨0, [0], []⟩).hostflags &&& HOST_KVM_TRAMPOLINE_LOCK = 0) ∧
    ((hvccall boardCfg boardEnv HYP_HOST_UNMAP_STAGE2 boardArgs
        (boardState 0 ⟨0, [0], []⟩)).out = Outcome.ret (-EPERM) ∧
      ∀ c args res, Event.func c args res ∉
        (hvccall boardCfg boardEnv HYP_HOST_UNMAP_STAGE2 boardArgs
          (boardState 0 ⟨0, [0], []⟩)).evs) :=
  ⟨(hvccall_indirect_call_validated boardCfg boardEnv HYP_HOST_UNMAP_STAGE2 boardArgs
      (boardText 0 ⟨0, [0], []⟩)).1
      [Event.spin_lock, Event.is_jump_valid 0x8003 false, Event.call Fn.add_jump [0x8003] 0,
        Event.is_jump_valid 0x8003 true]
      [Event.spin_unlock] 0x8003 [1, 2, 3, 4, 5, 6, 7, 8, 9] 0 board_unmap_stage2_registered,
   (hvccall_indirect_call_validated boardCfg boardEnv HYP_HOST_UNMAP_STAGE2 boardArgs
      (boardText 0 ⟨0, [0], []⟩)).2.1
      [Event.spin_lock, Event.is_jump_valid 0x8003 false]
      [Event.is_jump_valid 0x8003 true, Event.func 0x8003 [1, 2, 3, 4, 5, 6, 7, 8, 9] 0,
        Event.spin_unlock] [0x8003] 0 board_unmap_stage2_registered,
   (hvccall_indirect_call_validated boardCfg boardEnv HYP_HOST_UNMAP_STAGE2 boardArgs
      (boardState 0 ⟨0, [0], []⟩)).2.2
      (by rw [board_unmap_stage2_denied.1]; decide) (Or.inl (by decide))⟩

theorem isLegacy_of_isAddJump (e : Event) (h : e.isAddJump = true) : e.isLegacy = true := by
  cases e with
  | call f args res => cases f <;> first | rfl | cases h
  | _ => cases h

theorem isLegacy_of_isJumpValid (e : Event) (h : e.isJumpValid = true) :
    e.isLegacy = true := by
  cases e with
  | is_jump_valid c v => rfl
  | _ => cases h

theorem countP_isAddJump_plain (l : List Event) (hl : ∀ x ∈ l, x.isLegacy = false) :
    l.countP Event.isAddJump = 0 := by
  rw [List.countP_eq_zero]
  intro x hx hadd
  have := hl x hx
  rw [isLegacy_of_isAddJump x hadd] at this
  cases this

theorem countP_isJumpValid_plain (l : List Event) (hl : ∀ x ∈ l, x.isLegacy = false) :
    l.countP Event.isJumpValid = 0 := by
  rw [List.countP_eq_zero]
  intro x hx hv
  have := hl x hx
  rw [isLegacy_of_isJumpValid x hv] at this
  cases this

/-- C6. Bounded retry on the legacy path: in a single execution of `hvccall`, for any
behaviour of `is_jump_valid` and `add_jump`, `add_jump` is called at most once and
`is_jump_valid` at most twice; and when `add_jump` returned 0 and the check that follows
it answered false, `hvccall` returns -EPERM and calls `add_jump` no more. (`hvccall` is a
total function: the `do_retry` loop terminates because the jump back is only taken with
`retried` false and sets it.) -/
theorem hvccall_retry_bounded {σ : Type} (cfg : Config) (env : Env σ) (cn : Nat)
    (a : Args) (s : State σ) :
    (hvccall cfg env cn a s).evs.countP Event.isAddJump ≤ 1 ∧
    (hvccall cfg env cn a s).evs.countP Event.isJumpValid ≤ 2 ∧
    (∀ pre post c,
      (hvccall cfg env cn a s).evs =
          pre ++ Event.call Fn.add_jump [c] 0 :: Event.is_jump_valid c false :: post →
        (hvccall cfg env cn a s).out = Outcome.ret (-EPERM) ∧
          ∀ e ∈ post, e.isAddJump = false) := by
  obtain ⟨p, mid, q, hevs, hp, hq, hmid⟩ := hvccall_shape cfg env cn a s
  refine ⟨?_, ?_, ?_⟩
  · rw [hevs, List.countP_append, List.countP_append, countP_isAddJump_plain p hp,
      countP_isAddJump_plain q hq]
    rcases hmid with hnil | ⟨r, hrun, -⟩
    · rw [hnil]; simp
    · cases hrun <;> simp [List.countP_cons, Event.isAddJump]
  · rw [hevs, List.countP_append, List.countP_append, countP_isJumpValid_plain p hp,
      countP_isJumpValid_plain q hq]
    rcases hmid with hnil | ⟨r, hrun, -⟩
    · rw [hnil]; simp
    · cases hrun <;> simp [List.countP_cons, Event.isJumpValid]
  · intro pre post c h
    rw [hevs] at h
    obtain ⟨m1, m2, hm, -, hpost⟩ :=
      split_at_legacy p mid q pre _ (Event.call Fn.add_jump [c] 0) hp hq rfl h
    have hq' : ∀ e ∈ q, e.isAddJump = false := by
      intro e he
      cases hadd : e.isAddJump
      · rfl
      · have := hq e he
        rw [isLegacy_of_isAddJump e hadd] at this
        cases this
    rcases m2 with _ | ⟨y, m2⟩
    · rw [List.nil_append] at hpost
      have := hq (Event.is_jump_valid c false) (by rw [← hpost]; simp)
      cases this
    · rw [List.cons_append, List.cons.injEq] at hpost
      obtain ⟨hy, hpost⟩ := hpost
      subst hy
      rcases hmid with hnil | ⟨r, hrun, hout⟩
      · rw [hnil] at hm
        exact absurd hm (by simp)
      · cases hrun <;>
          rcases m1 with _ | ⟨x1, _ | ⟨x2, _ | ⟨x3, _ | ⟨x4, m1⟩⟩⟩⟩ <;>
          simp at hm
        refine ⟨by rw [hout, toInt32_neg_EPERM], ?_⟩
        rw [hpost, hm.2.2, List.nil_append]
        exact hq'

/-- Witness of C6: on a platform whose `add_jump` reports success without registering the
address, the second check fails and the call returns -EPERM after one `add_jump`. -/
theorem hvccall_retry_bounded_witness :
    (hvccall boardCfg stubbornEnv HYP_HOST_UNMAP_STAGE2 boardArgs
        (boardText 0 ⟨0, [0], []⟩)).out = Outcome.ret (-EPERM) ∧
      ∀ e ∈ [Event.spin_unlock], e.isAddJump = false :=
  (hvccall_retry_bounded boardCfg stubbornEnv HYP_HOST_UNMAP_STAGE2 boardArgs
      (boardText 0 ⟨0, [0], []⟩)).2.2
    [Event.spin_lock, Event.is_jump_valid 0x8003 false] [Event.spin_unlock] 0x8003
    board_unmap_stage2_retried_denied


/-! ### Lock flags -/

/-- The value `set_lockflags` leaves in `hostflags`. -/
theorem set_lockflags_hostflags {σ : Type} (env : Env σ) (flags addr sz : Nat) (s : State σ) :
    (set_lockflags env flags addr sz s).st.hostflags =
      (if flags &&& HOST_KVM_CALL_LOCK ≠ 0 then
        (if flags &&& HOST_STAGE1_LOCK ≠ 0 then
          (if flags &&& HOST_STAGE2_LOCK ≠ 0 then s.hostflags ||| HOST_STAGE2_LOCK
            else s.hostflags) ||| HOST_STAGE1_LOCK
          else (if flags &&& HOST_STAGE2_LOCK ≠ 0 then s.hostflags ||| HOST_STAGE2_LOCK
            else s.hostflags)) ||| HOST_KVM_CALL_LOCK
        else
          (if flags &&& HOST_STAGE1_LOCK ≠ 0 then
            (if flags &&& HOST_STAGE2_LOCK ≠ 0 then s.hostflags ||| HOST_STAGE2_LOCK
              else s.hostflags) ||| HOST_STAGE1_LOCK
            else (if flags &&& HOST_STAGE2_LOCK ≠ 0 then s.hostflags ||| HOST_STAGE2_LOCK
              else s.hostflags))) := by
  unfold set_lockflags
  simp only [invoke]
  split_ifs <;> rfl

theorem testBit_ite_or (c : Prop) [Decidable c] (h k i : Nat) (hb : h.testBit i = true) :
    (if c then h ||| k else h).testBit i = true := by
  split_ifs
  · rw [Nat.testBit_or, hb]; rfl
  · exact hb

/-- Every bit of `hostflags` that is set before `set_lockflags` is set after it. -/
theorem set_lockflags_keeps_bits {σ : Type} (env : Env σ) (flags addr sz : Nat) (s : State σ)
    (i : Nat) (hb : s.hostflags.testBit i = true) :
    (set_lockflags env flags addr sz s).st.hostflags.testBit i = true := by
  rw [set_lockflags_hostflags]
  exact testBit_ite_or _ _ _ _
    (testBit_ite_or _ _ _ _ (testBit_ite_or _ _ _ _ hb))

theorem and_call_lock_ne_zero_iff (h : Nat) :
    h &&& HOST_KVM_CALL_LOCK ≠ 0 ↔ h.testBit 2 = true := by
  have := Nat.and_two_pow h 2
  simp only [HOST_KVM_CALL_LOCK]
  cases hb : h.testBit 2 <;> simp [hb] at this ⊢ <;> omega

theorem hvccall_switch_SET_LOCKFLAGS {σ : Type} (cfg : Config) (env : Env σ) (a : Args)
    (s : State σ) :
    hvccall_switch cfg env HYP_HOST_SET_LOCKFLAGS a s =
      (set_lockflags env a.a1 a.a2 a.a3 s).toResult := by
  simp [hvccall_switch]

/-- A `HYP_HOST_SET_LOCKFLAGS` call returns, and keeps every bit of `hostflags` that was
set, in host and in guest context. -/
theorem hvccall_SET_LOCKFLAGS_keeps_bits {σ : Type} (cfg : Config) (env : Env σ) (a : Args)
    (s : State σ) :
    (∃ r, (hvccall cfg env HYP_HOST_SET_LOCKFLAGS a s).out = Outcome.ret r) ∧
    ∀ i, s.hostflags.testBit i = true →
      (hvccall cfg env HYP_HOST_SET_LOCKFLAGS a s).st.hostflags.testBit i = true := by
  have hpass : ¬ (is_apicall HYP_HOST_SET_LOCKFLAGS = CALL_TYPE_GUESTCALL ∧
      s.hostflags &&& HOST_KVM_CALL_LOCK ≠ 0) := by
    intro h
    exact absurd h.1 (by decide)
  by_cases hvmid : env.get_current_vmid s.ext = cfg.HOST_VMID
  · rw [hvccall_host cfg env _ a s hpass hvmid, if_pos (by decide),
      hvccall_switch_SET_LOCKFLAGS]
    refine ⟨⟨_, rfl⟩, ?_⟩
    intro i hb
    exact set_lockflags_keeps_bits env _ _ _ (spin_lock s) i hb
  · have hrun : hvccall cfg env HYP_HOST_SET_LOCKFLAGS a s =
        guest_hvccall env HYP_HOST_SET_LOCKFLAGS a s := by
      unfold hvccall
      rw [if_neg hpass]
      simp only [hvmid, ne_eq, not_false_eq_true, if_true]
    rw [hrun]
    refine ⟨⟨-EINVAL, by simp [guest_hvccall]⟩, ?_⟩
    intro i hb
    simpa [guest_hvccall, spin_lock, spin_unlock] using hb

theorem hvccall_seq_SET_LOCKFLAGS_keeps_bits {σ : Type} (cfg : Config) (env : Env σ)
    (calls : List Args) (s : State σ) (i : Nat) (hb : s.hostflags.testBit i = true) :
    (hvccall_seq cfg env HYP_HOST_SET_LOCKFLAGS calls s).hostflags.testBit i = true := by
  induction calls generalizing s with
  | nil => exact hb
  | cons a rest ih =>
    obtain ⟨⟨r, hr⟩, hkeep⟩ := hvccall_SET_LOCKFLAGS_keeps_bits cfg env a s
    simp only [hvccall_seq, hr]
    exact ih _ (hkeep i hb)

/-- C7. Lock flags are monotonic. (1) For every `flags`, `addr`, `sz` and state, every bit
set in `hostflags` before `set_lockflags` is set afterwards, whatever
`lock_host_kernel_area` does. (2) Once `HOST_KVM_CALL_LOCK` is set, it is still set after
any sequence of `HYP_HOST_SET_LOCKFLAGS` calls (any arguments, host or guest context), and
every guest-range call (0x9000..0x900E) issued then returns -EPERM. -/
theorem set_lockflags_monotonic {σ : Type} (cfg : Config) (env : Env σ) :
    (∀ (flags addr sz : Nat) (s : State σ) (i : Nat), s.hostflags.testBit i = true →
      (set_lockflags env flags addr sz s).st.hostflags.testBit i = true) ∧
    (∀ (calls : List Args) (s : State σ), s.hostflags &&& HOST_KVM_CALL_LOCK ≠ 0 →
      (hvccall_seq cfg env HYP_HOST_SET_LOCKFLAGS calls s).hostflags &&&
          HOST_KVM_CALL_LOCK ≠ 0 ∧
        ∀ (cn : Nat) (a : Args), 0x9000 ≤ cn → cn ≤ 0x900E →
          (hvccall cfg env cn a (hvccall_seq cfg env HYP_HOST_SET_LOCKFLAGS calls s)).out =
            Outcome.ret (-EPERM)) := by
  refine ⟨fun flags addr sz s i hb => set_lockflags_keeps_bits env flags addr sz s i hb, ?_⟩
  intro calls s hs
  have hfin : (hvccall_seq cfg env HYP_HOST_SET_LOCKFLAGS calls s).hostflags &&&
      HOST_KVM_CALL_LOCK ≠ 0 := by
    rw [and_call_lock_ne_zero_iff] at hs ⊢
    exact hvccall_seq_SET_LOCKFLAGS_keeps_bits cfg env calls s 2 hs
  refine ⟨hfin, ?_⟩
  intro cn a hlo hhi
  have hct : is_apicall cn = CALL_TYPE_GUESTCALL := by
    rw [is_apicall_eq]
    simp [hlo, hhi]
  unfold hvccall
  rw [if_pos ⟨hct, hfin⟩]

/-- Witness of C7: with the call lock set (`hostflags` = 0x4), bit 2 survives
`set_lockflags(0x3, ..)`, and after two `HYP_HOST_SET_LOCKFLAGS` calls `HYP_INIT_GUEST`
is still refused. -/
theorem set_lockflags_monotonic_witness :
    (set_lockflags boardEnv 0x3 0 0 (boardState 0x4 ⟨0, [0], []⟩)).st.hostflags.testBit 2 =
        true ∧
      (hvccall boardCfg boardEnv HYP_INIT_GUEST boardArgs
        (hvccall_seq boardCfg boardEnv HYP_HOST_SET_LOCKFLAGS [boardArgs, boardArgs]
          (boardState 0x4 ⟨0, [0], []⟩))).out = Outcome.ret (-EPERM) :=
  ⟨(set_lockflags_monotonic boardCfg boardEnv).1 0x3 0 0 (boardState 0x4 ⟨0, [0], []⟩) 2
      (by decide),
   ((set_lockflags_monotonic boardCfg boardEnv).2 [boardArgs, boardArgs]
      (boardState 0x4 ⟨0, [0], []⟩) (by decide)).2 HYP_INIT_GUEST boardArgs
      (by decide) (by decide)⟩


/-! ### The vmid scan -/

/-- The loop, run with the iterations it needs, either finds every id from `i` up to the
bound in use and leaves `next_vmid` as it was, or leaves through `break` at the smallest
unused id `j` in range. -/
theorem vmid_scan_cases (g : Int → Option Guest) (vmid_max : Int) (n : Nat) (i : Int)
    (next : Nat) (hn : vmid_max - i ≤ n) :
    (vmid_scan g vmid_max n i next = next ∧ ∀ k, i ≤ k → k < vmid_max → g k ≠ none) ∨
    (∃ j, i ≤ j ∧ j < vmid_max ∧ g j = none ∧ (∀ k, i ≤ k → k < j → g k ≠ none) ∧
      vmid_scan g vmid_max n i next = toUInt32 j) := by
  induction n generalizing i with
  | zero =>
    left
    exact ⟨rfl, fun k hk1 hk2 => by omega⟩
  | succ n ih =>
    rw [vmid_scan]
    by_cases h1 : i < vmid_max
    · rw [if_pos h1]
      by_cases h2 : (g i).isNone = true
      · rw [if_pos h2]
        right
        exact ⟨i, le_refl _, h1, Option.isNone_iff_eq_none.mp h2, fun k hk1 hk2 => by omega, rfl⟩
      · rw [if_neg h2]
        have hgi : g i ≠ none := fun hnone => h2 (Option.isNone_iff_eq_none.mpr hnone)
        rcases ih (i + 1) (by omega) with ⟨h3, h4⟩ | ⟨j, h3, h4, h5, h6, h7⟩
        · left
          refine ⟨h3, ?_⟩
          intro k hk1 hk2
          by_cases hk : k = i
          · rw [hk]; exact hgi
          · exact h4 k (by omega) hk2
        · right
          refine ⟨j, by omega, h4, h5, ?_, h7⟩
          intro k hk1 hk2
          by_cases hk : k = i
          · rw [hk]; exact hgi
          · exact h6 k (by omega) hk2
    · rw [if_neg h1]
      left
      exact ⟨rfl, fun k hk1 hk2 => by omega⟩

theorem toInt32_of_lt (f : Nat) (hf : f < 2 ^ 31) : toInt32 f = f := by
  unfold toInt32
  omega

theorem toInt32_of_ge (f : Nat) (hf : 2 ^ 31 ≤ f) (hf2 : f < 2 ^ 32) :
    toInt32 f = (f : Int) - 2 ^ 32 := by
  unfold toInt32
  omega

theorem toUInt32_of_nonneg (j : Int) (h0 : 0 ≤ j) (h1 : j < 2 ^ 32) :
    ((toUInt32 j : Nat) : Int) = j := by
  unfold toUInt32
  omega

theorem toUInt32_of_neg (f : Nat) (hf2 : f < 2 ^ 32) (hf : 2 ^ 31 ≤ f) :
    toUInt32 ((f : Int) - 2 ^ 32) = f := by
  unfold toUInt32
  omega

/-- The function `platform_get_next_vmid` with its locals substituted. -/
theorem platform_get_next_vmid_eq (cfg : Config) (g : Int → Option Guest) (hint : Nat) :
    platform_get_next_vmid cfg g hint =
      vmid_scan g cfg.PRODUCT_VMID_MAX
        ((cfg.PRODUCT_VMID_MAX : Int) -
          toInt32 ((if hint < cfg.GUEST_VMID_START then cfg.GUEST_VMID_START else hint : Nat))).toNat
        (toInt32 ((if hint < cfg.GUEST_VMID_START then cfg.GUEST_VMID_START else hint : Nat)))
        (if hint < cfg.GUEST_VMID_START then cfg.GUEST_VMID_START else hint) :=
  rfl

/-- What `platform_get_next_vmid` returns, with `f` the hint raised to `GUEST_VMID_START`:
either every id of `[f, PRODUCT_VMID_MAX)` is in use and the result is `f` itself, or the
result is the smallest unused id in `[f, PRODUCT_VMID_MAX)`. -/
theorem platform_get_next_vmid_cases (cfg : Config) (g : Int → Option Guest)
    (hS : cfg.GUEST_VMID_START < 2 ^ 31) (hM : cfg.PRODUCT_VMID_MAX < 2 ^ 31)
    (hneg : ∀ i : Int, i < 0 → g i = none) (hint : Nat) (hh : hint < 2 ^ 32) :
    (platform_get_next_vmid cfg g hint = max hint cfg.GUEST_VMID_START ∧
      ∀ k : Int, (max hint cfg.GUEST_VMID_START : Nat) ≤ k → k < cfg.PRODUCT_VMID_MAX →
        g k ≠ none) ∨
    (max hint cfg.GUEST_VMID_START ≤ platform_get_next_vmid cfg g hint ∧
      platform_get_next_vmid cfg g hint < cfg.PRODUCT_VMID_MAX ∧
      g (platform_get_next_vmid cfg g hint : Nat) = none ∧
      ∀ k : Int, (max hint cfg.GUEST_VMID_START : Nat) ≤ k →
        k < (platform_get_next_vmid cfg g hint : Nat) → g k ≠ none) := by
  have hf : (if hint < cfg.GUEST_VMID_START then cfg.GUEST_VMID_START else hint) =
      max hint cfg.GUEST_VMID_START := by
    split_ifs <;> omega
  rw [platform_get_next_vmid_eq, hf]
  have hf32 : max hint cfg.GUEST_VMID_START < 2 ^ 32 := by omega
  generalize max hint cfg.GUEST_VMID_START = f at hf32 ⊢
  by_cases hlt : f < 2 ^ 31
  · rw [toInt32_of_lt f hlt]
    rcases vmid_scan_cases g cfg.PRODUCT_VMID_MAX ((cfg.PRODUCT_VMID_MAX : Int) - f).toNat f f
        (by omega) with ⟨h3, h4⟩ | ⟨j, h3, h4, h5, h6, h7⟩
    · left
      exact ⟨h3, h4⟩
    · right
      have hj := toUInt32_of_nonneg j (by omega) (by omega)
      rw [h7]
      refine ⟨by omega, by omega, by rw [hj]; exact h5, ?_⟩
      intro k hk1 hk2
      exact h6 k hk1 (by omega)
  · left
    rw [toInt32_of_ge f (by omega) hf32]
    obtain ⟨n, hn⟩ : ∃ n, ((cfg.PRODUCT_VMID_MAX : Int) - ((f : Int) - 2 ^ 32)).toNat = n + 1 :=
      ⟨((cfg.PRODUCT_VMID_MAX : Int) - ((f : Int) - 2 ^ 32)).toNat - 1, by omega⟩
    rw [hn, vmid_scan, if_pos (by omega), hneg _ (by omega)]
    simp only [Option.isNone_none, if_true]
    exact ⟨toUInt32_of_neg f hf32 (by omega), fun k hk1 hk2 => by omega⟩


/-- C8, evaluated: with `PRODUCT_VMID_MAX` = 4, a live guest with id 3 and hint 3, the scan
of `[3, 4)` finds no unused id and `platform_get_next_vmid` returns 3, the id of the live
guest; `HYP_HOST_GET_VMID` hands that id to `guest_set_vmid`. -/
theorem platform_get_next_vmid_returns_used_id :
    platform_get_next_vmid boardCfg (boardEnv.get_guest ⟨0, [0, 3], []⟩) 3 = 3 ∧
      boardEnv.get_guest ⟨0, [0, 3], []⟩
        (platform_get_next_vmid boardCfg (boardEnv.get_guest ⟨0, [0, 3], []⟩) 3 : Nat) ≠ none ∧
      (hvccall boardCfg boardEnv HYP_HOST_GET_VMID { boardArgs with a2 := 3 }
        (boardState 0 ⟨0, [0, 3], []⟩)).evs =
        [Event.spin_lock, Event.call Fn.guest_set_vmid [1, 3] 0, Event.spin_unlock] := by
  with_unfolding_all decide

/-- C9, evaluated: with `GUEST_VMID_START` = 1, `PRODUCT_VMID_MAX` = 4 and the ids 1, 2, 3
all in use, `platform_get_next_vmid(0)` returns the floor 1, not the ceiling 4. -/
theorem platform_get_next_vmid_exhausted_returns_floor :
    (boardEnv.get_guest ⟨0, [0, 1, 2, 3], []⟩ 1 ≠ none ∧
        boardEnv.get_guest ⟨0, [0, 1, 2, 3], []⟩ 2 ≠ none ∧
        boardEnv.get_guest ⟨0, [0, 1, 2, 3], []⟩ 3 ≠ none) ∧
      platform_get_next_vmid boardCfg (boardEnv.get_guest ⟨0, [0, 1, 2, 3], []⟩) 0 = 1 ∧
      platform_get_next_vmid boardCfg (boardEnv.get_guest ⟨0, [0, 1, 2, 3], []⟩) 0 ≠
        boardCfg.PRODUCT_VMID_MAX := by
  with_unfolding_all decide

/-- C10. For a fixed registry `platform_get_next_vmid` is monotonic in its hint and never
returns an id below `GUEST_VMID_START` (so never the host vmid, when that lies below
`GUEST_VMID_START`). The macros are `int` constants (below 2^31), hints are `uint32_t`
values, and the registry has no guest under a negative `int` index. -/
theorem platform_get_next_vmid_monotonic (cfg : Config) (g : Int → Option Guest)
    (hS : cfg.GUEST_VMID_START < 2 ^ 31) (hM : cfg.PRODUCT_VMID_MAX < 2 ^ 31)
    (hneg : ∀ i : Int, i < 0 → g i = none) (h1 h2 : Nat) (h12 : h1 ≤ h2)
    (hh : h2 < 2 ^ 32) :
    platform_get_next_vmid cfg g h1 ≤ platform_get_next_vmid cfg g h2 ∧
      cfg.GUEST_VMID_START ≤ platform_get_next_vmid cfg g h1 ∧
      (cfg.HOST_VMID < cfg.GUEST_VMID_START →
        platform_get_next_vmid cfg g h1 ≠ cfg.HOST_VMID) := by
  have c1 := platform_get_next_vmid_cases cfg g hS hM hneg h1 (by omega)
  have c2 := platform_get_next_vmid_cases cfg g hS hM hneg h2 hh
  have hfloor : cfg.GUEST_VMID_START ≤ platform_get_next_vmid cfg g h1 := by
    rcases c1 with ⟨e1, -⟩ | ⟨l1, -, -, -⟩ <;> omega
  refine ⟨?_, hfloor, fun hhost => by omega⟩
  rcases c1 with ⟨e1, -⟩ | ⟨l1, b1, n1, m1⟩
  · rcases c2 with ⟨e2, -⟩ | ⟨l2, -, -, -⟩ <;> omega
  · by_contra hcon
    have hlt : platform_get_next_vmid cfg g h2 < platform_get_next_vmid cfg g h1 := by omega
    rcases c2 with ⟨e2, a2⟩ | ⟨l2, b2, n2, -⟩
    · exact a2 (platform_get_next_vmid cfg g h1 : Nat) (by omega) (by omega) n1
    · exact m1 (platform_get_next_vmid cfg g h2 : Nat) (by omega) (by omega) n2

/-- Witness of C10: ids 1 and 3 in use, hints 0 and 3. -/
theorem platform_get_next_vmid_monotonic_witness :
    platform_get_next_vmid boardCfg (boardEnv.get_guest ⟨0, [0, 1, 3], []⟩) 0 ≤
        platform_get_next_vmid boardCfg (boardEnv.get_guest ⟨0, [0, 1, 3], []⟩) 3 ∧
      boardCfg.GUEST_VMID_START ≤
        platform_get_next_vmid boardCfg (boardEnv.get_guest ⟨0, [0, 1, 3], []⟩) 0 ∧
      (boardCfg.HOST_VMID < boardCfg.GUEST_VMID_START →
        platform_get_next_vmid boardCfg (boardEnv.get_guest ⟨0, [0, 1, 3], []⟩) 0 ≠
          boardCfg.HOST_VMID) :=
  platform_get_next_vmid_monotonic boardCfg (boardEnv.get_guest ⟨0, [0, 1, 3], []⟩)
    (by decide) (by decide)
    (fun i hi => by
      have h0 : i ≠ 0 := by omega
      have h1 : i ≠ 1 := by omega
      have h3 : i ≠ 3 := by omega
      simp [boardEnv, h0, h1, h3])
    0 3 (by decide) (by decide)


/-! ### Case analysis of the `switch` -/

/-- A call number without a `case` label runs the `default:` case. -/
theorem hvccall_switch_default {σ : Type} (cfg : Config) (env : Env σ) (cn : Nat) (a : Args)
    (s : State σ) (h : ¬ has_case cn) :
    hvccall_switch cfg env cn a s =
      (do_retry env (env.kern_hyp_va cn) a false s).toResult := by
  unfold has_case at h
  simp only [not_or] at h
  obtain ⟨h0, h1, h2, h3, h4, h5, h6, h7, h8, h9, h10, h11, h12, h13, h14, h15, h16, h17,
    h18⟩ := h
  unfold hvccall_switch
  rw [if_neg h0, if_neg h1, if_neg h2, if_neg h3, if_neg h4, if_neg h5, if_neg h6, if_neg h7,
    if_neg h8, if_neg h9, if_neg h10, if_neg h11, if_neg h12,
    if_neg (by simp only [not_or]; exact h13), if_neg h14, if_neg h15, if_neg h16, if_neg h17,
    if_neg h18]

/-- A property that holds of the body of every `case`, and of the `default:` case for the
call numbers without a label, holds of the `switch`. -/
theorem hvccall_switch_elim {σ : Type} (motive : Result σ → Prop) (cfg : Config)
    (env : Env σ) (cn : Nat) (a : Args) (s : State σ)
    (h_map1 : motive (case_HOST_MAP_STAGE1 cfg env a s))
    (h_unmap1 : motive (case_HOST_UNMAP_STAGE1 cfg env a s))
    (h_prep2 : motive (case_HOST_PREPARE_STAGE2 cfg env a s))
    (h_map2 : motive (case_HOST_MAP_STAGE2 cfg env a s))
    (h_const : ∀ v : Int, motive { out := Outcome.ret v, st := s, evs := [] })
    (h_vmid : motive (case_HOST_GET_VMID cfg env a s))
    (h_flags : motive (set_lockflags env a.a1 a.a2 a.a3 s).toResult)
    (h_txt : motive (case_SET_HYP_TXT env a s))
    (h_tpidr : motive (case_SET_TPIDR cfg a s))
    (h_gmap : motive (case_GUEST_MAP_STAGE2 env a s))
    (h_gunmap : motive (case_GUEST_UNMAP_STAGE2 env a s))
    (h_invoke : ∀ (f : Fn) (args : List Nat), f ≠ Fn.add_jump →
      motive (invoke env f args s).toResult)
    (h_default : ¬ has_case cn →
      motive (do_retry env (env.kern_hyp_va cn) a false s).toResult) :
    motive (hvccall_switch cfg env cn a s) := by
  by_cases hc : has_case cn
  swap
  · rw [hvccall_switch_default cfg env cn a s hc]
    exact h_default hc
  clear h_default
  unfold hvccall_switch
  by_cases h0 : cn = HYP_HOST_MAP_STAGE1
  · rw [if_pos h0]; exact h_map1
  rw [if_neg h0]
  by_cases h1 : cn = HYP_HOST_UNMAP_STAGE1
  · rw [if_pos h1]; exact h_unmap1
  rw [if_neg h1]
  by_cases h2 : cn = HYP_HOST_PREPARE_STAGE2
  · rw [if_pos h2]; exact h_prep2
  rw [if_neg h2]
  by_cases h3 : cn = HYP_HOST_MAP_STAGE2
  · rw [if_pos h3]; exact h_map2
  rw [if_neg h3]
  by_cases h4 : cn = HYP_HOST_BOOTSTEP
  · rw [if_pos h4]; exact h_const 0
  rw [if_neg h4]
  by_cases h5 : cn = HYP_HOST_GET_VMID
  · rw [if_pos h5]; exact h_vmid
  rw [if_neg h5]
  by_cases h6 : cn = HYP_HOST_SET_LOCKFLAGS
  · rw [if_pos h6]; exact h_flags
  rw [if_neg h6]
  by_cases h7 : cn = HYP_READ_MDCR_EL2
  · rw [if_pos h7]; exact h_const _
  rw [if_neg h7]
  by_cases h8 : cn = HYP_SET_HYP_TXT
  · rw [if_pos h8]; exact h_txt
  rw [if_neg h8]
  by_cases h9 : cn = HYP_SET_WORKMEM
  · rw [if_pos h9]; exact h_invoke _ _ (by decide)
  rw [if_neg h9]
  by_cases h10 : cn = HYP_SET_TPIDR
  · rw [if_pos h10]; exact h_tpidr
  rw [if_neg h10]
  by_cases h11 : cn = HYP_GUEST_MAP_STAGE2
  · rw [if_pos h11]; exact h_gmap
  rw [if_neg h11]
  by_cases h12 : cn = HYP_GUEST_UNMAP_STAGE2
  · rw [if_pos h12]; exact h_gunmap
  rw [if_neg h12]
  by_cases h13 : cn = HYP_MKYOUNG ∨ cn = HYP_MKOLD ∨ cn = HYP_ISYOUNG
  · rw [if_pos h13]; exact h_invoke _ _ (by decide)
  rw [if_neg h13]
  by_cases h14 : cn = HYP_INIT_GUEST
  · rw [if_pos h14]; exact h_invoke _ _ (by decide)
  rw [if_neg h14]
  by_cases h15 : cn = HYP_FREE_GUEST
  · rw [if_pos h15]; exact h_invoke _ _ (by decide)
  rw [if_neg h15]
  by_cases h16 : cn = HYP_UPDATE_GUEST_MEMSLOT
  · rw [if_pos h16]; exact h_invoke _ _ (by decide)
  rw [if_neg h16]
  by_cases h17 : cn = HYP_USER_COPY
  · rw [if_pos h17]; exact h_invoke _ _ (by decide)
  rw [if_neg h17]
  by_cases h18 : cn = HYP_READ_LOG
  · rw [if_pos h18]; exact h_invoke _ _ (by decide)
  rw [if_neg h18]
  refine absurd hc ?_
  unfold has_case
  simp only [not_or]
  exact ⟨h0, h1, h2, h3, h4, h5, h6, h7, h8, h9, h10, h11, h12,
    ⟨(not_or.mp h13).1, (not_or.mp (not_or.mp h13).2).1, (not_or.mp (not_or.mp h13).2).2⟩,
    h14, h15, h16, h17, h18⟩


/-! ### Lock operations of a call -/

theorem do_retry_core_lock {σ : Type} (env : Env σ) (cn : Nat) (a : Args) (retried : Bool)
    (s : State σ) : (do_retry env cn a retried s).st.core_lock = s.core_lock := by
  cases retried with
  | true =>
    rw [do_retry_eq]
    simp only [Bool.true_eq_false, and_false, if_false]
    split_ifs <;> rfl
  | false =>
    rw [do_retry_eq]
    split_ifs
    · rfl
    · show (do_retry env cn a true _).st.core_lock = s.core_lock
      rw [do_retry_eq]
      simp only [Bool.true_eq_false, and_false, if_false]
      split_ifs <;> rfl
    · rfl
    · rfl

theorem legacyRun_no_lock (cn : Nat) (args : List Nat) (can_add : Prop) (evs : List Event)
    (res : Int) (h : LegacyRun cn args can_add evs res) : ∀ e ∈ evs, e.isLock = false := by
  cases h <;> simp [Event.isLock]

/-- The `switch` performs no lock operation and leaves the lock word as it was. -/
theorem hvccall_switch_no_lock {σ : Type} (cfg : Config) (env : Env σ) (cn : Nat) (a : Args)
    (s : State σ) :
    (∀ e ∈ (hvccall_switch cfg env cn a s).evs, e.isLock = false) ∧
      (hvccall_switch cfg env cn a s).st.core_lock = s.core_lock := by
  apply hvccall_switch_elim
    (fun r => (∀ e ∈ r.evs, e.isLock = false) ∧ r.st.core_lock = s.core_lock)
  · unfold case_HOST_MAP_STAGE1
    split
    · simp
    · simp only [invoke, Called.toResult]
      split_ifs <;> simp [Event.isLock]
  · unfold case_HOST_UNMAP_STAGE1
    simp only [invoke, Called.toResult]
    split_ifs <;> simp [Event.isLock]
  · unfold case_HOST_PREPARE_STAGE2
    split <;> simp [invoke, Called.toResult, Event.isLock]
  · unfold case_HOST_MAP_STAGE2
    split <;> simp [invoke, Called.toResult, Event.isLock]
  · intro v
    simp
  · unfold case_HOST_GET_VMID
    simp [invoke, Event.isLock]
  · unfold set_lockflags
    simp only [invoke, Called.toResult]
    split_ifs <;> simp [Event.isLock]
  · unfold case_SET_HYP_TXT
    simp only []
    split_ifs <;> simp [Event.isLock]
  · unfold case_SET_TPIDR
    split_ifs <;> simp
  · unfold case_GUEST_MAP_STAGE2
    split <;> simp [invoke, Called.toResult, Event.isLock]
  · unfold case_GUEST_UNMAP_STAGE2
    split <;> simp [invoke, Called.toResult, Event.isLock]
  · intro f args _
    simp [invoke, Called.toResult, Event.isLock]
  · intro _
    exact ⟨legacyRun_no_lock _ _ _ _ _ (do_retry_run env _ a s), do_retry_core_lock env _ a false s⟩

/-- The lock operations of a call of `hvccall`: none at all, or `spin_lock` first and
`spin_unlock` last around events that are no lock operations, or, when `HYP_ABORT()` is
reached, `spin_lock` first and no `spin_unlock`. -/
theorem hvccall_lock_shape {σ : Type} (cfg : Config) (env : Env σ) (cn : Nat) (a : Args)
    (s : State σ) :
    ∃ mid, (∀ e ∈ mid, e.isLock = false) ∧
      (((hvccall cfg env cn a s).evs = mid ∧
          (hvccall cfg env cn a s).st.core_lock = s.core_lock) ∨
        ((hvccall cfg env cn a s).evs = Event.spin_lock :: mid ++ [Event.spin_unlock] ∧
          (hvccall cfg env cn a s).st.core_lock = 0 ∧
          ∃ v, (hvccall cfg env cn a s).out = Outcome.ret v) ∨
        ((hvccall cfg env cn a s).evs = Event.spin_lock :: mid ∧
          (hvccall cfg env cn a s).st.core_lock = 1 ∧
          (hvccall cfg env cn a s).out = Outcome.abort)) := by
  by_cases hpass : is_apicall cn = CALL_TYPE_GUESTCALL ∧ s.hostflags &&& HOST_KVM_CALL_LOCK ≠ 0
  · refine ⟨[], by simp, Or.inl ?_⟩
    unfold hvccall
    rw [if_pos hpass]
    exact ⟨rfl, rfl⟩
  by_cases hvmid : env.get_current_vmid s.ext = cfg.HOST_VMID
  · rw [hvccall_host cfg env cn a s hpass hvmid]
    by_cases hct : is_apicall cn = 0
    · rw [if_neg (not_not.mpr hct)]
      obtain ⟨h1, h2⟩ := hvccall_switch_no_lock cfg env cn a s
      refine ⟨(hvccall_switch cfg env cn a s).evs, h1, Or.inl ?_⟩
      split <;> exact ⟨rfl, h2⟩
    · rw [if_pos hct]
      obtain ⟨h1, h2⟩ := hvccall_switch_no_lock cfg env cn a (spin_lock s)
      refine ⟨(hvccall_switch cfg env cn a (spin_lock s)).evs, h1, Or.inr ?_⟩
      split
      · exact Or.inr ⟨rfl, h2, rfl⟩
      · exact Or.inl ⟨rfl, rfl, _, rfl⟩
  · have hrun : hvccall cfg env cn a s = guest_hvccall env cn a s := by
      unfold hvccall
      rw [if_neg hpass]
      simp only [hvmid, ne_eq, not_false_eq_true, if_true]
    rw [hrun]
    unfold guest_hvccall
    simp only [invoke]
    split_ifs
    · exact ⟨[_], by simp [Event.isLock], Or.inr (Or.inl ⟨rfl, rfl, _, rfl⟩)⟩
    · exact ⟨[_], by simp [Event.isLock], Or.inr (Or.inl ⟨rfl, rfl, _, rfl⟩)⟩
    · exact ⟨[], by simp, Or.inr (Or.inl ⟨rfl, rfl, _, rfl⟩)⟩

theorem count_spin_lock_zero (l : List Event) (h : ∀ e ∈ l, e.isLock = false) :
    l.count Event.spin_lock = 0 ∧ l.count Event.spin_unlock = 0 := by
  constructor
  · rw [List.count_eq_zero]
    intro hm
    exact absurd (h _ hm) (by simp [Event.isLock])
  · rw [List.count_eq_zero]
    intro hm
    exact absurd (h _ hm) (by simp [Event.isLock])

/-- C15. Lock balance. On every path on which `hvccall` returns (any call number,
arguments, collaborator state and behaviour), `spin_lock` occurs at most once among the
events of the call and as often as `spin_unlock`; when it occurs it is the first event,
`spin_unlock` is the last, and no lock operation lies between them; a lock word that is
free at entry is free at return. An execution that starts with the lock free and ends with
it held is one that reached `HYP_ABORT()`. -/
theorem hvccall_lock_balanced {σ : Type} (cfg : Config) (env : Env σ) (cn : Nat) (a : Args)
    (s : State σ) :
    (∀ v, (hvccall cfg env cn a s).out = Outcome.ret v →
      (hvccall cfg env cn a s).evs.count Event.spin_lock ≤ 1 ∧
      (hvccall cfg env cn a s).evs.count Event.spin_lock =
        (hvccall cfg env cn a s).evs.count Event.spin_unlock ∧
      (Event.spin_lock ∈ (hvccall cfg env cn a s).evs →
        ∃ mid, (hvccall cfg env cn a s).evs = Event.spin_lock :: mid ++ [Event.spin_unlock] ∧
          ∀ e ∈ mid, e.isLock = false) ∧
      (s.core_lock = 0 → (hvccall cfg env cn a s).st.core_lock = 0)) ∧
    (s.core_lock = 0 → (hvccall cfg env cn a s).st.core_lock ≠ 0 →
      (hvccall cfg env cn a s).out = Outcome.abort) := by
  obtain ⟨mid, hmid, h⟩ := hvccall_lock_shape cfg env cn a s
  obtain ⟨hc1, hc2⟩ := count_spin_lock_zero mid hmid
  have hnl : Event.spin_lock ∉ mid := List.count_eq_zero.mp hc1
  rcases h with ⟨he, hl⟩ | ⟨he, hl, hv⟩ | ⟨he, hl, ho⟩
  · refine ⟨fun v _ => ⟨?_, ?_, ?_, ?_⟩, ?_⟩
    · rw [he, hc1]; exact Nat.zero_le _
    · rw [he, hc1, hc2]
    · intro hin
      rw [he] at hin
      exact absurd hin hnl
    · intro h0
      rw [hl, h0]
    · intro h0 hne
      rw [hl] at hne
      exact absurd h0 hne
  · refine ⟨fun v _ => ⟨?_, ?_, ?_, ?_⟩, ?_⟩
    · rw [he]
      simp [List.count_cons, hc1]
    · rw [he]
      simp [List.count_cons, hc1, hc2]
    · intro _
      exact ⟨mid, he, hmid⟩
    · intro _
      exact hl
    · intro _ hne
      exact absurd hl hne
  · refine ⟨fun v hv => ?_, fun _ _ => ho⟩
    rw [ho] at hv
    cases hv

/-- Evaluation: `HYP_SET_TPIDR` for cpu 1 in host context returns 0. -/
theorem board_set_tpidr :
    (hvccall boardCfg boardEnv HYP_SET_TPIDR { boardArgs with a2 := 1 }
      (boardState 0 ⟨0, [0], []⟩)).out = Outcome.ret 0 := by
  simp [hvccall, hvccall_switch, case_SET_TPIDR, is_apicall, boardEnv, boardState, boardCfg,
    boardArgs, toInt32]

/-- Evaluation: the text setup with end before start leaves the lock word taken. -/
theorem board_set_hyp_txt_lock_held :
    (hvccall boardCfg boardEnv HYP_SET_HYP_TXT { boardArgs with a1 := 2, a2 := 1 }
      (boardState 0 ⟨0, [0], []⟩)).st.core_lock ≠ 0 := by
  simp [hvccall, hvccall_switch, case_SET_HYP_TXT, is_apicall, boardEnv, boardState, boardCfg,
    boardArgs, spin_lock]

/-- Witness of C15: `HYP_SET_TPIDR` in host context with the lock free returns 0 after one
lock pair; the text setup with end before start ends in `HYP_ABORT()` with the lock held. -/
theorem hvccall_lock_balanced_witness :
    ((hvccall boardCfg boardEnv HYP_SET_TPIDR { boardArgs with a2 := 1 }
          (boardState 0 ⟨0, [0], []⟩)).evs.count Event.spin_lock ≤ 1 ∧
        (hvccall boardCfg boardEnv HYP_SET_TPIDR { boardArgs with a2 := 1 }
            (boardState 0 ⟨0, [0], []⟩)).evs.count Event.spin_lock =
          (hvccall boardCfg boardEnv HYP_SET_TPIDR { boardArgs with a2 := 1 }
            (boardState 0 ⟨0, [0], []⟩)).evs.count Event.spin_unlock ∧
        (Event.spin_lock ∈
            (hvccall boardCfg boardEnv HYP_SET_TPIDR { boardArgs with a2 := 1 }
              (boardState 0 ⟨0, [0], []⟩)).evs →
          ∃ mid, (hvccall boardCfg boardEnv HYP_SET_TPIDR { boardArgs with a2 := 1 }
              (boardState 0 ⟨0, [0], []⟩)).evs =
                Event.spin_lock :: mid ++ [Event.spin_unlock] ∧
            ∀ e ∈ mid, e.isLock = false) ∧
        ((boardState 0 ⟨0, [0], []⟩).core_lock = 0 →
          (hvccall boardCfg boardEnv HYP_SET_TPIDR { boardArgs with a2 := 1 }
            (boardState 0 ⟨0, [0], []⟩)).st.core_lock = 0)) ∧
      (hvccall boardCfg boardEnv HYP_SET_HYP_TXT { boardArgs with a1 := 2, a2 := 1 }
        (boardState 0 ⟨0, [0], []⟩)).out = Outcome.abort :=
  ⟨(hvccall_lock_balanced boardCfg boardEnv HYP_SET_TPIDR { boardArgs with a2 := 1 }
      (boardState 0 ⟨0, [0], []⟩)).1 0 board_set_tpidr,
   (hvccall_lock_balanced boardCfg boardEnv HYP_SET_HYP_TXT { boardArgs with a1 := 2, a2 := 1 }
      (boardState 0 ⟨0, [0], []⟩)).2 rfl board_set_hyp_txt_lock_held⟩


/-! ### Exact effect of `set_lockflags` -/

theorem testBit_ite_or_two_pow (f h k i : Nat) :
    (if f &&& 2 ^ k ≠ 0 then h ||| 2 ^ k else h).testBit i =
      (h.testBit i || (f.testBit k && decide (k = i))) := by
  have hand := Nat.and_two_pow f k
  cases hb : f.testBit k
  · rw [hb] at hand
    simp at hand
    simp [hand]
  · rw [hb] at hand
    simp at hand
    have hne : f &&& 2 ^ k ≠ 0 := by
      rw [hand]
      exact Nat.pos_iff_ne_zero.mp (Nat.two_pow_pos k)
    rw [if_pos hne, Nat.testBit_or, Nat.testBit_two_pow]
    simp

/-- C16. Exact effect of `set_lockflags`: for every `flags`, `addr`, `sz` and state, the
new `hostflags` is the old one or-ed with `flags & 0x7`, so the bits 0x8 (`HOST_PT_LOCK`)
and 0x10 (`HOST_KVM_TRAMPOLINE_LOCK`) are as before; the value returned is that of
`lock_host_kernel_area(addr, sz)` when `flags & HOST_PT_LOCK` is non-zero and 0 otherwise.
The flag bits are stored whatever `lock_host_kernel_area` returns. -/
theorem set_lockflags_effect {σ : Type} (env : Env σ) (flags addr sz : Nat) (s : State σ) :
    (set_lockflags env flags addr sz s).st.hostflags = s.hostflags ||| (flags &&& 0x7) ∧
    (set_lockflags env flags addr sz s).res =
      (if flags &&& HOST_PT_LOCK ≠ 0 then
        (env.call Fn.lock_host_kernel_area [addr, sz] s.ext).1 else 0) ∧
    (set_lockflags env flags addr sz s).st.hostflags.testBit 3 = s.hostflags.testBit 3 ∧
    (set_lockflags env flags addr sz s).st.hostflags.testBit 4 = s.hostflags.testBit 4 := by
  have hbits : ∀ i, (set_lockflags env flags addr sz s).st.hostflags.testBit i =
      (s.hostflags.testBit i || (flags.testBit i && decide (i < 3))) := by
    intro i
    rw [set_lockflags_hostflags]
    have h1 : HOST_STAGE1_LOCK = 2 ^ 0 := rfl
    have h2 : HOST_STAGE2_LOCK = 2 ^ 1 := rfl
    have h4 : HOST_KVM_CALL_LOCK = 2 ^ 2 := rfl
    rw [h1, h2, h4, testBit_ite_or_two_pow, testBit_ite_or_two_pow, testBit_ite_or_two_pow]
    rcases i with _ | _ | _ | i <;> simp
  refine ⟨?_, ?_, ?_, ?_⟩
  · apply Nat.eq_of_testBit_eq
    intro i
    have h7 : (0x7 : Nat) = 2 ^ 3 - 1 := rfl
    rw [hbits, Nat.testBit_or, Nat.testBit_and, h7, Nat.testBit_two_pow_sub_one]
  · unfold set_lockflags
    simp only [invoke]
    split_ifs <;> rfl
  · rw [hbits]; simp
  · rw [hbits]; simp

/-! ### Boot-time text setup -/

theorem hvccall_switch_SET_HYP_TXT {σ : Type} (cfg : Config) (env : Env σ) (a : Args)
    (s : State σ) :
    hvccall_switch cfg env HYP_SET_HYP_TXT a s = case_SET_HYP_TXT env a s := by
  simp [hvccall_switch]

theorem hpass_of_clear {σ : Type} (cn : Nat) (s : State σ)
    (hclear : s.hostflags &&& HOST_KVM_CALL_LOCK = 0) :
    ¬ (is_apicall cn = CALL_TYPE_GUESTCALL ∧ s.hostflags &&& HOST_KVM_CALL_LOCK ≠ 0) :=
  fun h => h.2 hclear

/-- C12. Boot-time text setup is validated fatally: for a `HYP_SET_HYP_TXT` call in host
context with the kill-switch clear, `hvccall` returns 0 if and only if
`kern_hyp_va(a2) > kern_hyp_va(a1)` and `a3 & CALL_MASK` is non-zero; in every other case
`HYP_ABORT()` is reached and the call does not return. -/
theorem hvccall_SET_HYP_TXT_validated {σ : Type} (cfg : Config) (env : Env σ) (a : Args)
    (s : State σ) (hvmid : env.get_current_vmid s.ext = cfg.HOST_VMID)
    (hclear : s.hostflags &&& HOST_KVM_CALL_LOCK = 0) :
    ((hvccall cfg env HYP_SET_HYP_TXT a s).out = Outcome.ret 0 ↔
      (env.kern_hyp_va a.a2 > env.kern_hyp_va a.a1 ∧ a.a3 &&& CALL_MASK ≠ 0)) ∧
    (¬ (env.kern_hyp_va a.a2 > env.kern_hyp_va a.a1 ∧ a.a3 &&& CALL_MASK ≠ 0) →
      (hvccall cfg env HYP_SET_HYP_TXT a s).out = Outcome.abort ∧
        Event.HYP_ABORT ∈ (hvccall cfg env HYP_SET_HYP_TXT a s).evs) := by
  rw [hvccall_host cfg env _ a s (hpass_of_clear _ s hclear) hvmid, if_pos (by decide),
    hvccall_switch_SET_HYP_TXT]
  unfold case_SET_HYP_TXT
  simp only []
  by_cases h1 : env.kern_hyp_va a.a2 ≤ env.kern_hyp_va a.a1
  · rw [if_pos h1]
    refine ⟨⟨fun h => (by cases h), fun h => absurd h.1 (by omega)⟩, fun _ => ⟨rfl, by simp⟩⟩
  · rw [if_neg h1]
    by_cases h2 : a.a3 &&& CALL_MASK = 0
    · rw [if_pos h2]
      refine ⟨⟨fun h => (by cases h), fun h => absurd h2 h.2⟩, fun _ => ⟨rfl, by simp⟩⟩
    · rw [if_neg h2]
      refine ⟨⟨fun _ => ⟨by omega, h2⟩, fun _ => ?_⟩, fun h => absurd ⟨by omega, h2⟩ h⟩
      show Outcome.ret (toInt32 0) = Outcome.ret 0
      rw [show toInt32 0 = 0 by unfold toInt32; omega]

/-- Witness of C12: start 1, end 2, exit pointer 3 returns 0; start 2, end 1 aborts. -/
theorem hvccall_SET_HYP_TXT_validated_witness :
    (hvccall boardCfg boardEnv HYP_SET_HYP_TXT boardArgs (boardState 0 ⟨0, [0], []⟩)).out =
        Outcome.ret 0 ∧
      ((hvccall boardCfg boardEnv HYP_SET_HYP_TXT { boardArgs with a1 := 2, a2 := 1 }
          (boardState 0 ⟨0, [0], []⟩)).out = Outcome.abort ∧
        Event.HYP_ABORT ∈
          (hvccall boardCfg boardEnv HYP_SET_HYP_TXT { boardArgs with a1 := 2, a2 := 1 }
            (boardState 0 ⟨0, [0], []⟩)).evs) :=
  ⟨(hvccall_SET_HYP_TXT_validated boardCfg boardEnv boardArgs (boardState 0 ⟨0, [0], []⟩)
      (by decide) (by decide)).1.mpr ⟨by decide, by decide⟩,
   (hvccall_SET_HYP_TXT_validated boardCfg boardEnv { boardArgs with a1 := 2, a2 := 1 }
      (boardState 0 ⟨0, [0], []⟩) (by decide) (by decide)).2 (by decide)⟩

/-! ### Width of the value returned -/

/-- C13, evaluated: `read_log()` yields the fragment 0x0504030204 (length byte 4, data bytes
02 03 04 05); `hvccall`, whose return type is `int`, returns 0x04030204: the fourth data
byte is lost. -/
theorem hvccall_read_log_truncated :
    (hvccall boardCfg logEnv HYP_READ_LOG boardArgs (boardState 0 ⟨0, [0], []⟩)).evs =
        [Event.call Fn.read_log [] 0x0504030204] ∧
      (hvccall boardCfg logEnv HYP_READ_LOG boardArgs (boardState 0 ⟨0, [0], []⟩)).out =
        Outcome.ret 0x04030204 ∧
      (0x04030204 : Int) ≠ 0x0504030204 := by
  refine ⟨?_, ?_, by decide⟩ <;>
    simp [hvccall, hvccall_switch, is_apicall, logEnv, boardEnv, boardState, boardCfg,
      boardArgs, Called.toResult, invoke, toInt32]


/-! ### Invalid arguments -/

/-- A host-context call of a classified call number whose `switch` returns: the events of
the `switch` between the lock pair, the lock word released. -/
theorem hvccall_host_locked_ret {σ : Type} (cfg : Config) (env : Env σ) (cn : Nat) (a : Args)
    (s t : State σ) (v : Int) (l : List Event)
    (hpass : ¬ (is_apicall cn = CALL_TYPE_GUESTCALL ∧ s.hostflags &&& HOST_KVM_CALL_LOCK ≠ 0))
    (hvmid : env.get_current_vmid s.ext = cfg.HOST_VMID) (hct : is_apicall cn ≠ 0)
    (hsw : hvccall_switch cfg env cn a (spin_lock s) =
      { out := Outcome.ret v, st := t, evs := l }) :
    hvccall cfg env cn a s =
      { out := Outcome.ret (toInt32 v), st := spin_unlock t,
        evs := Event.spin_lock :: l ++ [Event.spin_unlock] } := by
  rw [hvccall_host cfg env cn a s hpass hvmid, if_pos hct, hsw]

/-- A host-context call of an unclassified call number whose `switch` returns: the events
of the `switch`, no lock operation. -/
theorem hvccall_host_unlocked_ret {σ : Type} (cfg : Config) (env : Env σ) (cn : Nat)
    (a : Args) (s t : State σ) (v : Int) (l : List Event)
    (hvmid : env.get_current_vmid s.ext = cfg.HOST_VMID) (hct : is_apicall cn = 0)
    (hsw : hvccall_switch cfg env cn a s = { out := Outcome.ret v, st := t, evs := l }) :
    hvccall cfg env cn a s = { out := Outcome.ret (toInt32 v), st := t, evs := l } := by
  have hpass : ¬ (is_apicall cn = CALL_TYPE_GUESTCALL ∧
      s.hostflags &&& HOST_KVM_CALL_LOCK ≠ 0) := by
    rw [hct]
    exact fun h => absurd h.1 (by decide)
  rw [hvccall_host cfg env cn a s hpass hvmid, if_neg (not_not.mpr hct), hsw]

/-- C11 as stated fails: in host context with the kill-switch set, `HYP_SET_TPIDR` with
cpu id 5 on a platform of 2 cores returns -EPERM, not -EINVAL. -/
theorem hvccall_SET_TPIDR_kill_switch_EPERM :
    boardEnv.get_current_vmid (boardState 0x4 ⟨0, [0], []⟩).ext = boardCfg.HOST_VMID ∧
      ({ boardArgs with a2 := 5 } : Args).a2 ≥ boardCfg.PLATFORM_CORE_COUNT ∧
      (hvccall boardCfg boardEnv HYP_SET_TPIDR { boardArgs with a2 := 5 }
        (boardState 0x4 ⟨0, [0], []⟩)).out = Outcome.ret (-EPERM) ∧
      (hvccall boardCfg boardEnv HYP_SET_TPIDR { boardArgs with a2 := 5 }
        (boardState 0x4 ⟨0, [0], []⟩)).out ≠ Outcome.ret (-EINVAL) := by
  refine ⟨by decide, by decide, ?_, ?_⟩ <;>
    simp [hvccall, is_apicall, boardState]

/-- C11, amended. Invalid arguments detected by the dispatcher mutate nothing: for a call
in host context, (a) with the kill-switch clear, `HYP_SET_TPIDR` with
`a2 >= PLATFORM_CORE_COUNT` returns -EINVAL; (b) with the kill-switch clear,
`HYP_GUEST_MAP_STAGE2` and `HYP_GUEST_UNMAP_STAGE2` with `get_guest(a1)` null return
-ENOENT; (c) `HYP_HOST_MAP_STAGE1` and `HYP_HOST_MAP_STAGE2` with `get_guest(HOST_VMID)`
null return -ENOENT; in each of these the events are exactly `spin_lock`, `spin_unlock`
and the state at return is the state at entry with the lock word released. `HYP_HOST_PREPARE_STAGE2` with `get_guest(HOST_VMID)`
null returns -ENOENT, performs no event other than lock operations and leaves the state,
the lock word apart, as it was. -/
theorem hvccall_invalid_argument_no_effect {σ : Type} (cfg : Config) (env : Env σ)
    (a : Args) (s : State σ) (hvmid : env.get_current_vmid s.ext = cfg.HOST_VMID) :
    (s.hostflags &&& HOST_KVM_CALL_LOCK = 0 → a.a2 ≥ cfg.PLATFORM_CORE_COUNT →
      hvccall cfg env HYP_SET_TPIDR a s =
        { out := Outcome.ret (-EINVAL), st := { s with core_lock := 0 },
          evs := [Event.spin_lock, Event.spin_unlock] }) ∧
    (s.hostflags &&& HOST_KVM_CALL_LOCK = 0 → env.get_guest s.ext a.a1 = none →
      hvccall cfg env HYP_GUEST_MAP_STAGE2 a s =
        { out := Outcome.ret (-ENOENT), st := { s with core_lock := 0 },
          evs := [Event.spin_lock, Event.spin_unlock] } ∧
      hvccall cfg env HYP_GUEST_UNMAP_STAGE2 a s =
        { out := Outcome.ret (-ENOENT), st := { s with core_lock := 0 },
          evs := [Event.spin_lock, Event.spin_unlock] }) ∧
    (env.get_guest s.ext cfg.HOST_VMID = none →
      hvccall cfg env HYP_HOST_MAP_STAGE1 a s =
        { out := Outcome.ret (-ENOENT), st := { s with core_lock := 0 },
          evs := [Event.spin_lock, Event.spin_unlock] } ∧
      hvccall cfg env HYP_HOST_MAP_STAGE2 a s =
        { out := Outcome.ret (-ENOENT), st := { s with core_lock := 0 },
          evs := [Event.spin_lock, Event.spin_unlock] } ∧
      (hvccall cfg env HYP_HOST_PREPARE_STAGE2 a s).out = Outcome.ret (-ENOENT) ∧
      (∀ e ∈ (hvccall cfg env HYP_HOST_PREPARE_STAGE2 a s).evs, e.isLock = true) ∧
      { (hvccall cfg env HYP_HOST_PREPARE_STAGE2 a s).st with core_lock := s.core_lock } = s) := by
  refine ⟨fun hclear h => ?_, fun hclear h => ⟨?_, ?_⟩, fun h => ⟨?_, ?_, ?_⟩⟩
  · rw [hvccall_host_locked_ret cfg env HYP_SET_TPIDR a s (spin_lock s) (-EINVAL) []
      (hpass_of_clear _ s hclear) hvmid (by decide)
      (by simp [hvccall_switch, case_SET_TPIDR, h]), toInt32_neg_EINVAL]
    rfl
  · rw [hvccall_host_locked_ret cfg env HYP_GUEST_MAP_STAGE2 a s (spin_lock s) (-ENOENT) []
      (hpass_of_clear _ s hclear) hvmid (by decide)
      (by simp [hvccall_switch, case_GUEST_MAP_STAGE2, spin_lock, h]), toInt32_neg_ENOENT]
    rfl
  · rw [hvccall_host_locked_ret cfg env HYP_GUEST_UNMAP_STAGE2 a s (spin_lock s) (-ENOENT) []
      (hpass_of_clear _ s hclear) hvmid (by decide)
      (by simp [hvccall_switch, case_GUEST_UNMAP_STAGE2, spin_lock, h]), toInt32_neg_ENOENT]
    rfl
  · rw [hvccall_host_locked_ret cfg env HYP_HOST_MAP_STAGE1 a s (spin_lock s) (-ENOENT) []
      (fun hk => absurd hk.1 (by decide)) hvmid (by decide)
      (by simp [hvccall_switch, case_HOST_MAP_STAGE1, spin_lock, h]), toInt32_neg_ENOENT]
    rfl
  · rw [hvccall_host_locked_ret cfg env HYP_HOST_MAP_STAGE2 a s (spin_lock s) (-ENOENT) []
      (fun hk => absurd hk.1 (by decide)) hvmid (by decide)
      (by simp [hvccall_switch, case_HOST_MAP_STAGE2, spin_lock, h]), toInt32_neg_ENOENT]
    rfl
  · rw [hvccall_host_unlocked_ret cfg env HYP_HOST_PREPARE_STAGE2 a s s (-ENOENT) []
      hvmid (by decide)
      (by simp [hvccall_switch, case_HOST_PREPARE_STAGE2, h]), toInt32_neg_ENOENT]
    exact ⟨rfl, by simp, rfl⟩

/-- Witness of C11: on the concrete platform with no guest registered, host context,
kill-switch clear, `HYP_SET_TPIDR` for cpu 5 of 2 returns -EINVAL and `HYP_HOST_MAP_STAGE1`
returns -ENOENT, each with the lock pair as its only events. -/
theorem hvccall_invalid_argument_no_effect_witness :
    hvccall boardCfg boardEnv HYP_SET_TPIDR { boardArgs with a2 := 5 }
        (boardState 0 ⟨0, [], []⟩) =
      { out := Outcome.ret (-EINVAL), st := { boardState 0 ⟨0, [], []⟩ with core_lock := 0 },
        evs := [Event.spin_lock, Event.spin_unlock] } ∧
    hvccall boardCfg boardEnv HYP_GUEST_MAP_STAGE2 { boardArgs with a2 := 5 }
        (boardState 0 ⟨0, [], []⟩) =
      { out := Outcome.ret (-ENOENT), st := { boardState 0 ⟨0, [], []⟩ with core_lock := 0 },
        evs := [Event.spin_lock, Event.spin_unlock] } ∧
    hvccall boardCfg boardEnv HYP_HOST_MAP_STAGE1 { boardArgs with a2 := 5 }
        (boardState 0 ⟨0, [], []⟩) =
      { out := Outcome.ret (-ENOENT), st := { boardState 0 ⟨0, [], []⟩ with core_lock := 0 },
        evs := [Event.spin_lock, Event.spin_unlock] } :=
  ⟨(hvccall_invalid_argument_no_effect boardCfg boardEnv { boardArgs with a2 := 5 }
      (boardState 0 ⟨0, [], []⟩) (by decide)).1 (by decide) (by decide),
   ((hvccall_invalid_argument_no_effect boardCfg boardEnv { boardArgs with a2 := 5 }
      (boardState 0 ⟨0, [], []⟩) (by decide)).2.1 (by decide) (by decide)).1,
   ((hvccall_invalid_argument_no_effect boardCfg boardEnv { boardArgs with a2 := 5 }
      (boardState 0 ⟨0, [], []⟩) (by decide)).2.2 (by decide)).1⟩


/-! ### Routing of the recognised call numbers -/

/-- The call numbers with a `case` label, by value: 0x8000..0x8008 without 0x8003 and
0x8007, 0x9000..0x900E without 0x900B and 0x900C, and 0xA000. -/
theorem has_case_iff (cn : Nat) :
    has_case cn ↔
      ((0x8000 ≤ cn ∧ cn ≤ 0x8008 ∧ cn ≠ HYP_HOST_UNMAP_STAGE2 ∧
          cn ≠ HYP_HOST_PREPARE_STAGE1) ∨
        (0x9000 ≤ cn ∧ cn ≤ 0x900E ∧ cn ≠ HYP_SET_GUEST_MEMORY_OPEN ∧
          cn ≠ HYP_SET_GUEST_MEMORY_BLINDED) ∨
        cn = 0xA000) := by
  unfold has_case
  simp only [HYP_HOST_MAP_STAGE1, HYP_HOST_UNMAP_STAGE1, HYP_HOST_PREPARE_STAGE2,
    HYP_HOST_MAP_STAGE2, HYP_HOST_BOOTSTEP, HYP_HOST_GET_VMID, HYP_HOST_SET_LOCKFLAGS,
    HYP_READ_MDCR_EL2, HYP_SET_HYP_TXT, HYP_SET_WORKMEM, HYP_SET_TPIDR, HYP_GUEST_MAP_STAGE2,
    HYP_GUEST_UNMAP_STAGE2, HYP_MKYOUNG, HYP_MKOLD, HYP_ISYOUNG, HYP_INIT_GUEST,
    HYP_FREE_GUEST, HYP_UPDATE_GUEST_MEMSLOT, HYP_USER_COPY, HYP_READ_LOG,
    HYP_HOST_UNMAP_STAGE2, HYP_HOST_PREPARE_STAGE1, HYP_SET_GUEST_MEMORY_OPEN,
    HYP_SET_GUEST_MEMORY_BLINDED]
  omega

/-- The body of a `case` performs no event of the legacy callback path. -/
theorem hvccall_switch_case_plain {σ : Type} (cfg : Config) (env : Env σ) (cn : Nat)
    (a : Args) (s : State σ) (hc : has_case cn) :
    ∀ e ∈ (hvccall_switch cfg env cn a s).evs, e.isLegacy = false := by
  revert hc
  apply hvccall_switch_elim (fun r => has_case cn → ∀ e ∈ r.evs, e.isLegacy = false)
  · exact fun _ => case_HOST_MAP_STAGE1_plain cfg env a s
  · exact fun _ => case_HOST_UNMAP_STAGE1_plain cfg env a s
  · exact fun _ => case_HOST_PREPARE_STAGE2_plain cfg env a s
  · exact fun _ => case_HOST_MAP_STAGE2_plain cfg env a s
  · intro v _ e he
    simp at he
  · exact fun _ => case_HOST_GET_VMID_plain cfg env a s
  · exact fun _ => set_lockflags_evs_plain env a.a1 a.a2 a.a3 s
  · exact fun _ => case_SET_HYP_TXT_plain env a s
  · exact fun _ => case_SET_TPIDR_plain cfg a s
  · exact fun _ => case_GUEST_MAP_STAGE2_plain env a s
  · exact fun _ => case_GUEST_UNMAP_STAGE2_plain env a s
  · exact fun f args hf _ => invoke_evs_plain env f args s hf
  · exact fun hn hc => absurd hc hn

/-- In host context the events of `hvccall` are those of the `switch` and lock operations:
when the `switch` performs no legacy event, neither does the call. -/
theorem hvccall_host_plain {σ : Type} (cfg : Config) (env : Env σ) (cn : Nat) (a : Args)
    (s : State σ)
    (hpass : ¬ (is_apicall cn = CALL_TYPE_GUESTCALL ∧ s.hostflags &&& HOST_KVM_CALL_LOCK ≠ 0))
    (hvmid : env.get_current_vmid s.ext = cfg.HOST_VMID)
    (hsw : ∀ t : State σ, ∀ e ∈ (hvccall_switch cfg env cn a t).evs, e.isLegacy = false) :
    ∀ e ∈ (hvccall cfg env cn a s).evs, e.isLegacy = false := by
  rw [hvccall_host cfg env cn a s hpass hvmid]
  by_cases hct : is_apicall cn ≠ 0
  · rw [if_pos hct]
    cases ho : (hvccall_switch cfg env cn a (spin_lock s)).out with
    | abort =>
      intro e he
      simp only [List.mem_cons] at he
      rcases he with he | he
      · rw [he]; rfl
      · exact hsw _ e he
    | ret v =>
      intro e he
      simp only [List.cons_append, List.mem_cons, List.mem_append, List.mem_singleton,
        List.not_mem_nil, or_false] at he
      rcases he with he | he | he
      · rw [he]; rfl
      · exact hsw _ e he
      · rw [he]; rfl
  · rw [if_neg hct]
    cases ho : (hvccall_switch cfg env cn a s).out with
    | abort => exact hsw _
    | ret v => exact hsw _

/-- C14 as stated fails: in host context with the kill-switch clear,
`HYP_SET_GUEST_MEMORY_BLINDED` (0x900C) is not dispatched to `remove_host_range`: the call
number goes through `kern_hyp_va` to `is_jump_valid` and the call returns -EPERM. -/
theorem hvccall_memory_blinded_host_legacy :
    boardEnv.get_current_vmid (boardState 0 ⟨0, [0], []⟩).ext = boardCfg.HOST_VMID ∧
      (boardState 0 ⟨0, [0], []⟩).hostflags &&& HOST_KVM_CALL_LOCK = 0 ∧
      (hvccall boardCfg boardEnv HYP_SET_GUEST_MEMORY_BLINDED boardArgs
          (boardState 0 ⟨0, [0], []⟩)).evs =
        [Event.spin_lock, Event.is_jump_valid 0x900C false, Event.spin_unlock] ∧
      (hvccall boardCfg boardEnv HYP_SET_GUEST_MEMORY_BLINDED boardArgs
        (boardState 0 ⟨0, [0], []⟩)).out = Outcome.ret (-EPERM) := by
  refine ⟨by decide, by decide, ?_, ?_⟩ <;>
  simp [hvccall, hvccall_switch, is_apicall, do_retry_eq, boardEnv, boardState, boardCfg,
    boardArgs, Called.toResult, spin_lock, invoke, Args.toList, toInt32]

/-- A host-context call of a classified call number whose `case` is one handler call:
the handler runs between the lock operations and its value is returned. -/
theorem hvccall_host_invoke {σ : Type} (cfg : Config) (env : Env σ) (cn : Nat) (a : Args)
    (s : State σ) (f : Fn) (args : List Nat)
    (hpass : ¬ (is_apicall cn = CALL_TYPE_GUESTCALL ∧ s.hostflags &&& HOST_KVM_CALL_LOCK ≠ 0))
    (hvmid : env.get_current_vmid s.ext = cfg.HOST_VMID) (hct : is_apicall cn ≠ 0)
    (hsw : ∀ t : State σ, hvccall_switch cfg env cn a t = (invoke env f args t).toResult) :
    hvccall cfg env cn a s =
      { out := Outcome.ret (toInt32 (env.call f args s.ext).1),
        st := { s with core_lock := 0, ext := (env.call f args s.ext).2 },
        evs := [Event.spin_lock, Event.call f args (env.call f args s.ext).1,
          Event.spin_unlock] } := by
  rw [hvccall_host_locked_ret cfg env cn a s (invoke env f args (spin_lock s)).st
    (invoke env f args (spin_lock s)).res (invoke env f args (spin_lock s)).evs
    hpass hvmid hct (hsw (spin_lock s))]
  rfl

/-- In host context an event of the `switch`, performed whatever the lock word is, is an
event of the call. -/
theorem hvccall_host_mem {σ : Type} (cfg : Config) (env : Env σ) (cn : Nat) (a : Args)
    (s : State σ) (e : Event)
    (hpass : ¬ (is_apicall cn = CALL_TYPE_GUESTCALL ∧ s.hostflags &&& HOST_KVM_CALL_LOCK ≠ 0))
    (hvmid : env.get_current_vmid s.ext = cfg.HOST_VMID)
    (hsw : ∀ t : State σ, t.ext = s.ext → e ∈ (hvccall_switch cfg env cn a t).evs) :
    e ∈ (hvccall cfg env cn a s).evs := by
  rw [hvccall_host cfg env cn a s hpass hvmid]
  by_cases hct : is_apicall cn ≠ 0
  · rw [if_pos hct]
    have h1 := hsw (spin_lock s) rfl
    cases ho : (hvccall_switch cfg env cn a (spin_lock s)).out with
    | abort => exact List.mem_cons_of_mem _ h1
    | ret v =>
      exact List.mem_cons_of_mem _ (List.mem_append_left _ h1)
  · rw [if_neg hct]
    have h1 := hsw s rfl
    cases ho : (hvccall_switch cfg env cn a s).out with
    | abort => exact h1
    | ret v => exact h1

/-- In host context the value the `switch` leaves in `res`, whatever the lock word is, is
the value the call returns, converted to `int`. -/
theorem hvccall_host_out {σ : Type} (cfg : Config) (env : Env σ) (cn : Nat) (a : Args)
    (s : State σ) (v : Int)
    (hpass : ¬ (is_apicall cn = CALL_TYPE_GUESTCALL ∧ s.hostflags &&& HOST_KVM_CALL_LOCK ≠ 0))
    (hvmid : env.get_current_vmid s.ext = cfg.HOST_VMID)
    (hsw : ∀ t : State σ, t.ext = s.ext →
      (hvccall_switch cfg env cn a t).out = Outcome.ret v) :
    (hvccall cfg env cn a s).out = Outcome.ret (toInt32 v) := by
  rw [hvccall_host cfg env cn a s hpass hvmid]
  by_cases hct : is_apicall cn ≠ 0
  · rw [if_pos hct, hsw (spin_lock s) rfl]
  · rw [if_neg hct, hsw s rfl]

/-- The handler calls of the host-side mapping cases, as events of the `switch`. -/
theorem hvccall_switch_host_map_events {σ : Type} (cfg : Config) (env : Env σ) (a : Args)
    (s t : State σ) (g : Guest) (ht : t.ext = s.ext)
    (hg : env.get_guest s.ext cfg.HOST_VMID = some g) :
    Event.call Fn.mmap_range [g.s1_pgd, STAGE1, a.a1, a.a2, a.a3, a.a4, KERNEL_MATTR]
        (env.call Fn.mmap_range [g.s1_pgd, STAGE1, a.a1, a.a2, a.a3, a.a4, KERNEL_MATTR]
          s.ext).1 ∈ (hvccall_switch cfg env HYP_HOST_MAP_STAGE1 a t).evs ∧
      (hvccall_switch cfg env HYP_HOST_PREPARE_STAGE2 a t).evs =
        [Event.call Fn.mmap_range [g.s2_pgd, STAGE2, a.a1, a.a2, a.a3, a.a4, KEEP_MATTR]
          (env.call Fn.mmap_range [g.s2_pgd, STAGE2, a.a1, a.a2, a.a3, a.a4, KEEP_MATTR]
            s.ext).1] ∧
      (hvccall_switch cfg env HYP_HOST_PREPARE_STAGE2 a t).out =
        Outcome.ret (env.call Fn.mmap_range
          [g.s2_pgd, STAGE2, a.a1, a.a2, a.a3, a.a4, KEEP_MATTR] s.ext).1 := by
  refine ⟨?_, ?_, ?_⟩
  · have h : hvccall_switch cfg env HYP_HOST_MAP_STAGE1 a t =
        case_HOST_MAP_STAGE1 cfg env a t := by simp [hvccall_switch]
    rw [h]
    unfold case_HOST_MAP_STAGE1
    rw [ht, hg]
    simp only [invoke, ht]
    split_ifs <;> simp [Called.toResult]
  · have h : hvccall_switch cfg env HYP_HOST_PREPARE_STAGE2 a t =
        case_HOST_PREPARE_STAGE2 cfg env a t := by simp [hvccall_switch]
    rw [h]
    unfold case_HOST_PREPARE_STAGE2
    rw [ht, hg]
    simp [invoke, Called.toResult, ht]
  · have h : hvccall_switch cfg env HYP_HOST_PREPARE_STAGE2 a t =
        case_HOST_PREPARE_STAGE2 cfg env a t := by simp [hvccall_switch]
    rw [h]
    unfold case_HOST_PREPARE_STAGE2
    rw [ht, hg]
    simp [invoke, Called.toResult, ht]

/-- The handler call of `case HYP_HOST_UNMAP_STAGE1:`, and the value left in `res`. -/
theorem hvccall_switch_host_unmap_events {σ : Type} (cfg : Config) (env : Env σ) (a : Args)
    (s t : State σ) (ht : t.ext = s.ext) :
    Event.call Fn.unmap_range [0, STAGE1, a.a1, a.a2]
        (env.call Fn.unmap_range [0, STAGE1, a.a1, a.a2] s.ext).1 ∈
          (hvccall_switch cfg env HYP_HOST_UNMAP_STAGE1 a t).evs ∧
      (hvccall_switch cfg env HYP_HOST_UNMAP_STAGE1 a t).out =
        Outcome.ret (env.call Fn.unmap_range [0, STAGE1, a.a1, a.a2] s.ext).1 := by
  have h : hvccall_switch cfg env HYP_HOST_UNMAP_STAGE1 a t =
      case_HOST_UNMAP_STAGE1 cfg env a t := by simp [hvccall_switch]
  rw [h]
  unfold case_HOST_UNMAP_STAGE1
  simp only [invoke, ht]
  split_ifs <;> simp [Called.toResult]

/-- The event of `case HYP_HOST_SET_LOCKFLAGS:`. -/
theorem hvccall_switch_set_lockflags_event {σ : Type} (cfg : Config) (env : Env σ)
    (a : Args) (t : State σ) :
    Event.set_lockflags a.a1 a.a2 a.a3 ∈
      (hvccall_switch cfg env HYP_HOST_SET_LOCKFLAGS a t).evs := by
  rw [hvccall_switch_SET_LOCKFLAGS]
  unfold set_lockflags
  simp only [invoke, Called.toResult]
  split_ifs <;> simp

/-- The stores of `case HYP_SET_HYP_TXT:` are in the state the call leaves, whether it
returns or aborts. -/
theorem hvccall_SET_HYP_TXT_stores {σ : Type} (cfg : Config) (env : Env σ) (a : Args)
    (s : State σ)
    (hpass : ¬ (is_apicall HYP_SET_HYP_TXT = CALL_TYPE_GUESTCALL ∧
      s.hostflags &&& HOST_KVM_CALL_LOCK ≠ 0))
    (hvmid : env.get_current_vmid s.ext = cfg.HOST_VMID) :
    (hvccall cfg env HYP_SET_HYP_TXT a s).st.hyp_text_start = env.kern_hyp_va a.a1 ∧
      (hvccall cfg env HYP_SET_HYP_TXT a s).st.hyp_text_end = env.kern_hyp_va a.a2 ∧
      (hvccall cfg env HYP_SET_HYP_TXT a s).st.guest_exit = a.a3 &&& CALL_MASK ∧
      (hvccall cfg env HYP_SET_HYP_TXT a s).st.fpsimd_guest_restore = a.a4 &&& CALL_MASK := by
  rw [hvccall_host cfg env _ a s hpass hvmid, if_pos (by decide), hvccall_switch_SET_HYP_TXT]
  unfold case_SET_HYP_TXT
  simp only []
  by_cases h1 : env.kern_hyp_va a.a2 ≤ env.kern_hyp_va a.a1
  · rw [if_pos h1]
    exact ⟨rfl, rfl, rfl, rfl⟩
  · rw [if_neg h1]
    by_cases h2 : a.a3 &&& CALL_MASK = 0
    · rw [if_pos h2]
      exact ⟨rfl, rfl, rfl, rfl⟩
    · rw [if_neg h2]
      exact ⟨rfl, rfl, rfl, rfl⟩

/-- C14, amended. With the kill-switch clear, in host context: every call number that has
a `case` label (0x8000..0x8008 other than 0x8003 and 0x8007, 0x9000..0x900E other than
0x900B and 0x900C, and 0xA000) performs no event of the legacy callback path (no
`is_jump_valid`, no `add_jump`, no indirect call), and it is dispatched to its own handler:
`set_heap`, `guest_stage2_access_flag`, `init_guest`, `free_guest`, `update_memslot` and
`guest_user_copy` are called once, with the arguments of the source, between `spin_lock`
and `spin_unlock`, and their value is returned; `HYP_READ_LOG` calls `read_log()` without
the lock; `HYP_HOST_BOOTSTEP` returns 0 and `HYP_READ_MDCR_EL2` the register; the stage-1
and stage-2 host calls call `mmap_range` / `unmap_range` on the host tables;
`HYP_HOST_GET_VMID` calls `guest_set_vmid` with the id of `platform_get_next_vmid` and
returns it; `HYP_HOST_SET_LOCKFLAGS` runs `set_lockflags(a1, a2, a3)`; `HYP_SET_HYP_TXT`
stores the text range and the two entry points; `HYP_SET_TPIDR` with a valid cpu id stores
`a3` in `__kvm_host_data[a2]` and `a1` in `TPIDR_EL2`; the guest stage-2 calls call
`guest_map_range` / `guest_unmap_range` on the guest of `a1`.
`HYP_SET_GUEST_MEMORY_BLINDED` and `HYP_SET_GUEST_MEMORY_OPEN` are dispatched to
`remove_host_range(a1, a2)` and `restore_host_range(a1, a2)` for calls from guest context,
between `spin_lock` and `spin_unlock`. -/
theorem hvccall_recognised_not_legacy {σ : Type} (cfg : Config) (env : Env σ) (cn : Nat)
    (a : Args) (s : State σ) (hclear : s.hostflags &&& HOST_KVM_CALL_LOCK = 0) :
    (env.get_current_vmid s.ext = cfg.HOST_VMID →
      (((0x8000 ≤ cn ∧ cn ≤ 0x8008 ∧ cn ≠ HYP_HOST_UNMAP_STAGE2 ∧
            cn ≠ HYP_HOST_PREPARE_STAGE1) ∨
          (0x9000 ≤ cn ∧ cn ≤ 0x900E ∧ cn ≠ HYP_SET_GUEST_MEMORY_OPEN ∧
            cn ≠ HYP_SET_GUEST_MEMORY_BLINDED) ∨
          cn = 0xA000) →
        ∀ e ∈ (hvccall cfg env cn a s).evs, e.isLegacy = false) ∧
      (∀ (f : Fn) (args : List Nat),
        (cn, f, args) ∈
          [(HYP_SET_WORKMEM, Fn.set_heap, [env.kern_hyp_va a.a1, a.a2]),
            (HYP_MKYOUNG, Fn.guest_stage2_access_flag, [HYP_MKYOUNG, a.a1, a.a2, a.a3]),
            (HYP_MKOLD, Fn.guest_stage2_access_flag, [HYP_MKOLD, a.a1, a.a2, a.a3]),
            (HYP_ISYOUNG, Fn.guest_stage2_access_flag, [HYP_ISYOUNG, a.a1, a.a2, a.a3]),
            (HYP_INIT_GUEST, Fn.init_guest, [a.a1]),
            (HYP_FREE_GUEST, Fn.free_guest, [a.a1]),
            (HYP_UPDATE_GUEST_MEMSLOT, Fn.update_memslot, [a.a1, a.a2, a.a3]),
            (HYP_USER_COPY, Fn.guest_user_copy, [a.a6, a.a1, a.a2])] →
        hvccall cfg env cn a s =
          { out := Outcome.ret (toInt32 (env.call f args s.ext).1),
            st := { s with core_lock := 0, ext := (env.call f args s.ext).2 },
            evs := [Event.spin_lock, Event.call f args (env.call f args s.ext).1,
              Event.spin_unlock] }) ∧
      hvccall cfg env HYP_READ_LOG a s =
        { out := Outcome.ret (toInt32 (env.call Fn.read_log [] s.ext).1),
          st := { s with ext := (env.call Fn.read_log [] s.ext).2 },
          evs := [Event.call Fn.read_log [] (env.call Fn.read_log [] s.ext).1] } ∧
      hvccall cfg env HYP_HOST_BOOTSTEP a s =
        { out := Outcome.ret 0, st := { s with core_lock := 0 },
          evs := [Event.spin_lock, Event.spin_unlock] } ∧
      hvccall cfg env HYP_READ_MDCR_EL2 a s =
        { out := Outcome.ret (toInt32 s.mdcr_el2), st := { s with core_lock := 0 },
          evs := [Event.spin_lock, Event.spin_unlock] } ∧
      (Event.call Fn.unmap_range [0, STAGE1, a.a1, a.a2]
            (env.call Fn.unmap_range [0, STAGE1, a.a1, a.a2] s.ext).1 ∈
          (hvccall cfg env HYP_HOST_UNMAP_STAGE1 a s).evs ∧
        (hvccall cfg env HYP_HOST_UNMAP_STAGE1 a s).out =
          Outcome.ret (toInt32 (env.call Fn.unmap_range [0, STAGE1, a.a1, a.a2] s.ext).1)) ∧
      hvccall cfg env HYP_HOST_GET_VMID a s =
        { out := Outcome.ret
            (toInt32 (platform_get_next_vmid cfg (env.get_guest s.ext) (a.a2 % 2 ^ 32))),
          st := { s with
            core_lock := 0,
            ext := (env.call Fn.guest_set_vmid
              [a.a1, platform_get_next_vmid cfg (env.get_guest s.ext) (a.a2 % 2 ^ 32)]
              s.ext).2 },
          evs := [Event.spin_lock,
            Event.call Fn.guest_set_vmid
              [a.a1, platform_get_next_vmid cfg (env.get_guest s.ext) (a.a2 % 2 ^ 32)]
              (env.call Fn.guest_set_vmid
                [a.a1, platform_get_next_vmid cfg (env.get_guest s.ext) (a.a2 % 2 ^ 32)]
                s.ext).1,
            Event.spin_unlock] } ∧
      Event.set_lockflags a.a1 a.a2 a.a3 ∈ (hvccall cfg env HYP_HOST_SET_LOCKFLAGS a s).evs ∧
      ((hvccall cfg env HYP_SET_HYP_TXT a s).st.hyp_text_start = env.kern_hyp_va a.a1 ∧
        (hvccall cfg env HYP_SET_HYP_TXT a s).st.hyp_text_end = env.kern_hyp_va a.a2 ∧
        (hvccall cfg env HYP_SET_HYP_TXT a s).st.guest_exit = a.a3 &&& CALL_MASK ∧
        (hvccall cfg env HYP_SET_HYP_TXT a s).st.fpsimd_guest_restore = a.a4 &&& CALL_MASK) ∧
      (a.a2 < cfg.PLATFORM_CORE_COUNT →
        hvccall cfg env HYP_SET_TPIDR a s =
          { out := Outcome.ret 0,
            st := { s with
              core_lock := 0,
              kvm_host_data := s.kvm_host_data.set a.a2 a.a3,
              tpidr_el2 := a.a1 },
            evs := [Event.spin_lock, Event.spin_unlock] }) ∧
      (∀ g : Guest, env.get_guest s.ext cfg.HOST_VMID = some g →
        Event.call Fn.mmap_range [g.s1_pgd, STAGE1, a.a1, a.a2, a.a3, a.a4, KERNEL_MATTR]
            (env.call Fn.mmap_range [g.s1_pgd, STAGE1, a.a1, a.a2, a.a3, a.a4, KERNEL_MATTR]
              s.ext).1 ∈ (hvccall cfg env HYP_HOST_MAP_STAGE1 a s).evs ∧
        hvccall cfg env HYP_HOST_MAP_STAGE2 a s =
          { out := Outcome.ret (toInt32 (env.call Fn.mmap_range
              [g.s2_pgd, STAGE2, a.a1, a.a2, a.a3, a.a4, KERNEL_MATTR] s.ext).1),
            st := { s with
              core_lock := 0,
              ext := (env.call Fn.mmap_range
                [g.s2_pgd, STAGE2, a.a1, a.a2, a.a3, a.a4, KERNEL_MATTR] s.ext).2 },
            evs := [Event.spin_lock,
              Event.call Fn.mmap_range
                [g.s2_pgd, STAGE2, a.a1, a.a2, a.a3, a.a4, KERNEL_MATTR]
                (env.call Fn.mmap_range
                  [g.s2_pgd, STAGE2, a.a1, a.a2, a.a3, a.a4, KERNEL_MATTR] s.ext).1,
              Event.spin_unlock] } ∧
        Event.call Fn.mmap_range [g.s2_pgd, STAGE2, a.a1, a.a2, a.a3, a.a4, KEEP_MATTR]
            (env.call Fn.mmap_range [g.s2_pgd, STAGE2, a.a1, a.a2, a.a3, a.a4, KEEP_MATTR]
              s.ext).1 ∈ (hvccall cfg env HYP_HOST_PREPARE_STAGE2 a s).evs ∧
        (hvccall cfg env HYP_HOST_PREPARE_STAGE2 a s).out =
          Outcome.ret (toInt32 (env.call Fn.mmap_range
            [g.s2_pgd, STAGE2, a.a1, a.a2, a.a3, a.a4, KEEP_MATTR] s.ext).1)) ∧
      (∀ g : Guest, env.get_guest s.ext a.a1 = some g →
        hvccall cfg env HYP_GUEST_MAP_STAGE2 a s =
          { out := Outcome.ret (toInt32 (env.call Fn.guest_map_range
              [g.handle, a.a2, a.a3, a.a4, a.a5] s.ext).1),
            st := { s with
              core_lock := 0,
              ext := (env.call Fn.guest_map_range
                [g.handle, a.a2, a.a3, a.a4, a.a5] s.ext).2 },
            evs := [Event.spin_lock,
              Event.call Fn.guest_map_range [g.handle, a.a2, a.a3, a.a4, a.a5]
                (env.call Fn.guest_map_range [g.handle, a.a2, a.a3, a.a4, a.a5] s.ext).1,
              Event.spin_unlock] } ∧
        hvccall cfg env HYP_GUEST_UNMAP_STAGE2 a s =
          { out := Outcome.ret (toInt32 (env.call Fn.guest_unmap_range
              [g.handle, a.a2, a.a3, a.a4] s.ext).1),
            st := { s with
              core_lock := 0,
              ext := (env.call Fn.guest_unmap_range
                [g.handle, a.a2, a.a3, a.a4] s.ext).2 },
            evs := [Event.spin_lock,
              Event.call Fn.guest_unmap_range [g.handle, a.a2, a.a3, a.a4]
                (env.call Fn.guest_unmap_range [g.handle, a.a2, a.a3, a.a4] s.ext).1,
              Event.spin_unlock] })) ∧
    (env.get_current_vmid s.ext ≠ cfg.HOST_VMID →
      (cn = HYP_SET_GUEST_MEMORY_BLINDED →
        (hvccall cfg env cn a s).evs =
          [Event.spin_lock,
            Event.call Fn.remove_host_range [a.a1, a.a2]
              (env.call Fn.remove_host_range [a.a1, a.a2] s.ext).1,
            Event.spin_unlock]) ∧
      (cn = HYP_SET_GUEST_MEMORY_OPEN →
        (hvccall cfg env cn a s).evs =
          [Event.spin_lock,
            Event.call Fn.restore_host_range [a.a1, a.a2]
              (env.call Fn.restore_host_range [a.a1, a.a2] s.ext).1,
            Event.spin_unlock])) := by
  have hp : ∀ c : Nat, ¬ (is_apicall c = CALL_TYPE_GUESTCALL ∧
      s.hostflags &&& HOST_KVM_CALL_LOCK ≠ 0) := fun c => hpass_of_clear c s hclear
  refine ⟨fun hvmid => ⟨fun hcn => ?_, fun f args hmem => ?_, ?_, ?_, ?_, ⟨?_, ?_⟩, ?_, ?_,
    ⟨?_, ?_, ?_, ?_⟩, fun h => ?_, fun g hg => ⟨?_, ?_, ?_, ?_⟩, fun g hg => ⟨?_, ?_⟩⟩,
    fun hvmid => ⟨fun h => ?_, fun h => ?_⟩⟩
  · have hc : has_case cn := (has_case_iff cn).mpr hcn
    exact hvccall_host_plain cfg env cn a s (hp cn) hvmid
      (fun t => hvccall_switch_case_plain cfg env cn a t hc)
  · simp only [List.mem_cons, Prod.mk.injEq, List.not_mem_nil, or_false] at hmem
    rcases hmem with ⟨h1, h2, h3⟩ | ⟨h1, h2, h3⟩ | ⟨h1, h2, h3⟩ | ⟨h1, h2, h3⟩ |
      ⟨h1, h2, h3⟩ | ⟨h1, h2, h3⟩ | ⟨h1, h2, h3⟩ | ⟨h1, h2, h3⟩ <;>
    · rw [h1, h2, h3]
      exact hvccall_host_invoke cfg env _ a s _ _ (hp _) hvmid (by decide)
        (fun t => by simp [hvccall_switch])
  · rw [hvccall_host_unlocked_ret cfg env HYP_READ_LOG a s
      (invoke env Fn.read_log [] s).st (invoke env Fn.read_log [] s).res
      (invoke env Fn.read_log [] s).evs hvmid (by decide)
      (by simp [hvccall_switch, Called.toResult])]
    rfl
  · rw [hvccall_host_locked_ret cfg env HYP_HOST_BOOTSTEP a s (spin_lock s) 0 []
      (hp _) hvmid (by decide) (by simp [hvccall_switch]),
      show toInt32 0 = 0 by unfold toInt32; omega]
    rfl
  · rw [hvccall_host_locked_ret cfg env HYP_READ_MDCR_EL2 a s (spin_lock s) s.mdcr_el2 []
      (hp _) hvmid (by decide) (by simp [hvccall_switch, spin_lock])]
    rfl
  · exact hvccall_host_mem cfg env _ a s _ (hp _) hvmid
      (fun t ht => (hvccall_switch_host_unmap_events cfg env a s t ht).1)
  · exact hvccall_host_out cfg env _ a s _ (hp _) hvmid
      (fun t ht => (hvccall_switch_host_unmap_events cfg env a s t ht).2)
  · rw [hvccall_host_locked_ret cfg env HYP_HOST_GET_VMID a s
      (case_HOST_GET_VMID cfg env a (spin_lock s)).st
      (platform_get_next_vmid cfg (env.get_guest s.ext) (a.a2 % 2 ^ 32))
      (case_HOST_GET_VMID cfg env a (spin_lock s)).evs
      (hp _) hvmid (by decide)
      (by
        have h : hvccall_switch cfg env HYP_HOST_GET_VMID a (spin_lock s) =
            case_HOST_GET_VMID cfg env a (spin_lock s) := by simp [hvccall_switch]
        rw [h]
        rfl)]
    rfl
  · exact hvccall_host_mem cfg env _ a s _ (hp _) hvmid
      (fun t _ => hvccall_switch_set_lockflags_event cfg env a t)
  · exact (hvccall_SET_HYP_TXT_stores cfg env a s (hp _) hvmid).1
  · exact (hvccall_SET_HYP_TXT_stores cfg env a s (hp _) hvmid).2.1
  · exact (hvccall_SET_HYP_TXT_stores cfg env a s (hp _) hvmid).2.2.1
  · exact (hvccall_SET_HYP_TXT_stores cfg env a s (hp _) hvmid).2.2.2
  · rw [hvccall_host_locked_ret cfg env HYP_SET_TPIDR a s
      { spin_lock s with kvm_host_data := s.kvm_host_data.set a.a2 a.a3, tpidr_el2 := a.a1 }
      0 [] (hp _) hvmid (by decide)
      (by simp [hvccall_switch, case_SET_TPIDR, not_le.mpr h, spin_lock]),
      show toInt32 0 = 0 by unfold toInt32; omega]
    rfl
  · exact hvccall_host_mem cfg env _ a s _ (hp _) hvmid
      (fun t ht => (hvccall_switch_host_map_events cfg env a s t g ht hg).1)
  · rw [hvccall_host_locked_ret cfg env HYP_HOST_MAP_STAGE2 a s
      (invoke env Fn.mmap_range [g.s2_pgd, STAGE2, a.a1, a.a2, a.a3, a.a4, KERNEL_MATTR]
        (spin_lock s)).st
      (invoke env Fn.mmap_range [g.s2_pgd, STAGE2, a.a1, a.a2, a.a3, a.a4, KERNEL_MATTR]
        (spin_lock s)).res
      (invoke env Fn.mmap_range [g.s2_pgd, STAGE2, a.a1, a.a2, a.a3, a.a4, KERNEL_MATTR]
        (spin_lock s)).evs
      (hp _) hvmid (by decide)
      (by simp [hvccall_switch, case_HOST_MAP_STAGE2, spin_lock, hg, Called.toResult])]
    rfl
  · refine hvccall_host_mem cfg env _ a s _ (hp _) hvmid (fun t ht => ?_)
    rw [(hvccall_switch_host_map_events cfg env a s t g ht hg).2.1]
    exact List.mem_singleton.mpr rfl
  · exact hvccall_host_out cfg env _ a s _ (hp _) hvmid
      (fun t ht => (hvccall_switch_host_map_events cfg env a s t g ht hg).2.2)
  · rw [hvccall_host_locked_ret cfg env HYP_GUEST_MAP_STAGE2 a s
      (invoke env Fn.guest_map_range [g.handle, a.a2, a.a3, a.a4, a.a5] (spin_lock s)).st
      (invoke env Fn.guest_map_range [g.handle, a.a2, a.a3, a.a4, a.a5] (spin_lock s)).res
      (invoke env Fn.guest_map_range [g.handle, a.a2, a.a3, a.a4, a.a5] (spin_lock s)).evs
      (hp _) hvmid (by decide)
      (by simp [hvccall_switch, case_GUEST_MAP_STAGE2, spin_lock, hg, Called.toResult])]
    rfl
  · rw [hvccall_host_locked_ret cfg env HYP_GUEST_UNMAP_STAGE2 a s
      (invoke env Fn.guest_unmap_range [g.handle, a.a2, a.a3, a.a4] (spin_lock s)).st
      (invoke env Fn.guest_unmap_range [g.handle, a.a2, a.a3, a.a4] (spin_lock s)).res
      (invoke env Fn.guest_unmap_range [g.handle, a.a2, a.a3, a.a4] (spin_lock s)).evs
      (hp _) hvmid (by decide)
      (by simp [hvccall_switch, case_GUEST_UNMAP_STAGE2, spin_lock, hg, Called.toResult])]
    rfl
  · unfold hvccall
    rw [if_neg (hp cn)]
    simp only [hvmid, ne_eq, not_false_eq_true, if_true]
    rw [h]
    rfl
  · unfold hvccall
    rw [if_neg (hp cn)]
    simp only [hvmid, ne_eq, not_false_eq_true, if_true]
    rw [h]
    rfl

/-- Witness of C14: on the concrete platform with the kill-switch clear, in host context
`HYP_READ_LOG` performs no legacy event, `HYP_INIT_GUEST` calls `init_guest(1)` between the
lock operations and returns its value, `HYP_HOST_MAP_STAGE2` calls `mmap_range` on the
host's stage-2 table, and `HYP_SET_GUEST_MEMORY_BLINDED` from guest 1 calls
`remove_host_range(1, 2)` between the lock operations. -/
theorem hvccall_recognised_not_legacy_witness :
    (∀ e ∈ (hvccall boardCfg boardEnv HYP_READ_LOG boardArgs
        (boardState 0 ⟨0, [0], []⟩)).evs, e.isLegacy = false) ∧
      hvccall boardCfg boardEnv HYP_INIT_GUEST boardArgs (boardState 0 ⟨0, [0], []⟩) =
        { out := Outcome.ret (toInt32 (boardEnv.call Fn.init_guest [boardArgs.a1]
            (boardState 0 ⟨0, [0], []⟩).ext).1),
          st := { boardState 0 ⟨0, [0], []⟩ with
            core_lock := 0,
            ext := (boardEnv.call Fn.init_guest [boardArgs.a1]
              (boardState 0 ⟨0, [0], []⟩).ext).2 },
          evs := [Event.spin_lock,
            Event.call Fn.init_guest [boardArgs.a1]
              (boardEnv.call Fn.init_guest [boardArgs.a1] (boardState 0 ⟨0, [0], []⟩).ext).1,
            Event.spin_unlock] } ∧
      (hvccall boardCfg boardEnv HYP_HOST_MAP_STAGE2 boardArgs
          (boardState 0 ⟨0, [0], []⟩)).evs =
        [Event.spin_lock,
          Event.call Fn.mmap_range [0x3000, STAGE2, 1, 2, 3, 4, KERNEL_MATTR] 0,
          Event.spin_unlock] ∧
      (hvccall boardCfg boardEnv HYP_SET_GUEST_MEMORY_BLINDED boardArgs
          (boardState 0 ⟨1, [0, 1], []⟩)).evs =
        [Event.spin_lock,
          Event.call Fn.remove_host_range [boardArgs.a1, boardArgs.a2]
            (boardEnv.call Fn.remove_host_range [boardArgs.a1, boardArgs.a2]
              (boardState 0 ⟨1, [0, 1], []⟩).ext).1,
          Event.spin_unlock] :=
  ⟨((hvccall_recognised_not_legacy boardCfg boardEnv HYP_READ_LOG boardArgs
      (boardState 0 ⟨0, [0], []⟩) (by decide)).1 (by decide)).1 (by decide),
   ((hvccall_recognised_not_legacy boardCfg boardEnv HYP_INIT_GUEST boardArgs
      (boardState 0 ⟨0, [0], []⟩) (by decide)).1 (by decide)).2.1 Fn.init_guest
        [boardArgs.a1] (by simp),
   congrArg Result.evs
     (((hvccall_recognised_not_legacy boardCfg boardEnv HYP_HOST_MAP_STAGE2 boardArgs
        (boardState 0 ⟨0, [0], []⟩) (by decide)).1 (by decide)).2.2.2.2.2.2.2.2.2.2.1
          { handle := 0x1000, s1_pgd := 0x2000, s2_pgd := 0x3000 } (by decide)).2.1,
   ((hvccall_recognised_not_legacy boardCfg boardEnv HYP_SET_GUEST_MEMORY_BLINDED boardArgs
      (boardState 0 ⟨1, [0, 1], []⟩) (by decide)).2 (by decide)).1 rfl⟩
end Kvms
